import Mathlib

/-!
Verification of the DoggoNogo reaction-time game core (trial lifecycle,
response classification, adaptive running-median threshold, phase/score
controller) against its specification.

The development shallowly embeds three variants of the level logic:

* `Level1`  — the adaptive level 1 implementation (file `part_007`,
  the `level1` object): per-phase targets recomputed from remaining
  trials, a `minRT` anticipation cutoff, and a `minRT`-anchored fast
  scoring formula.
* `Level2S` — the simplified level 2 implementation (file `part_006`):
  same adaptive targets, no `minRT`, baseline scoring.
* `Level2D` — the directional (Simon-style) level 2 implementation
  (`src/game/levels/level2.js`): fixed precomputed phase targets,
  left/right response keys, error outcomes, slow responses award
  `minScore/2` points.

JavaScript numbers are modelled as `ℚ`; `setTimeout`/`clearTimeout`
are modelled by `Option ℕ` handle fields holding the id of the (unique,
freshly numbered) scheduled callback — a fired or cleared id is removed
from the field, which faithfully captures that a cleared timer never
fires.  Rendering, audio, particles and the score-feedback text timer
are external collaborators outside the core and are not modelled.
-/

namespace DoggoNogo

/-- Trial outcome classification tags used across all level variants. -/
inductive TrialType where
  | fast
  | slow
  | early
  | timeout
  | error
deriving DecidableEq, Repr

/-- Keyboard inputs distinguished by the handlers. -/
inductive Key where
  | arrowDown
  | arrowLeft
  | arrowRight
  | space
  | keyS
  | other
deriving DecidableEq, Repr

/-- Game lifecycle flag (`state.gameState`): `"playing"` or `"done"`. -/
inductive GState where
  | playing
  | done
deriving DecidableEq, Repr

/-- Break sequencing states (`state.breakState`). -/
inductive BreakState where
  | idle
  | started
  | effects
  | ready
deriving DecidableEq, Repr

/-- Float tolerance used by `finishTrial` / `_checkForPhaseOrLevelEnd`
when comparing the score against the phase target (`const epsilon = 1e-6`). -/
def epsilon : ℚ := 1 / 1000000

/-- Model of `computeMedian(arr)` (identical in `level1.computeMedian`
and `level2.computeMedian`): empty input returns the current
`state.medianRT`; otherwise sort ascending, middle element for odd
length, mean of the two middle elements for even length. -/
def computeMedian (arr : List ℚ) (currentMedianRT : ℚ) : ℚ :=
  match arr with
  | [] => currentMedianRT
  | x :: xs =>
    let sorted := List.insertionSort (· ≤ ·) (x :: xs)
    let mid := sorted.length / 2
    if sorted.length % 2 ≠ 0 then sorted.getD mid 0
    else (sorted.getD (mid - 1) 0 + sorted.getD mid 0) / 2

/-- Textbook median, written from the specification's words: sort
ascending, take the middle element for odd length, and the mean of the
two middle elements for even length. -/
def textbookMedian (l : List ℚ) : ℚ :=
  let sorted := List.insertionSort (· ≤ ·) l
  if sorted.length % 2 = 1 then sorted.getD (sorted.length / 2) 0
  else (sorted.getD (sorted.length / 2 - 1) 0 + sorted.getD (sorted.length / 2) 0) / 2

/-- Model of `computePhaseTarget(phaseIdx)` as implemented identically in
`level1.computePhaseTarget` and the simplified `level2.computePhaseTarget`
(`part_006`): estimate this phase's trials from the remaining trials,
assume a 50% fast rate, and floor the target by
`max(minScore, (minTrialsPerPhase/2)*minScore)`. -/
def adaptivePhaseTarget (trialsNumber minTrialsPerPhase minScore : ℚ)
    (trials : ℚ) (phaseIdx : ℚ) : ℚ :=
  let phasesRemaining := max 1 (3 - phaseIdx)
  let trialsLeft := max 0 (trialsNumber - trials)
  let trialsThisPhase : ℚ := (Int.ceil (trialsLeft / phasesRemaining) : ℤ)
  let expectedFast : ℚ := (Int.floor (trialsThisPhase * (1/2 : ℚ)) : ℤ)
  let estimatedTarget := expectedFast * minScore
  let minTargetByTrials := minTrialsPerPhase / 2 * minScore
  max minScore (max minTargetByTrials estimatedTarget)

/-- Model of the directional variant's `computePhaseTarget` in
`src/game/levels/level2.js`: a fixed per-phase target
`ceil(trialsNumber / 3) * minScore`, independent of the phase index and
of the number of trials already presented. -/
def fixedPhaseTarget (trialsNumber minScore : ℚ) : ℚ :=
  let perPhaseTrials : ℚ := (Int.ceil (trialsNumber / 3) : ℤ)
  perPhaseTrials * minScore

namespace Level1

/-- Level 1 tuning parameters (`level1.params` in `part_007`); only the
fields read by the core logic are modelled (rendering and audio
parameters are external). -/
structure Params where
  trialsNumber : ℚ
  minTrialsPerPhase : ℚ
  minScore : ℚ
  maxScore : ℚ
  minRT : ℚ
  initialMedianRT : ℚ
  gameDifficulty : ℚ

/-- The source's parameter values: 12 trials, 4 minimum trials per
phase, 100/200 score bounds, 100 ms anticipation cutoff, 1000 ms
initial median, difficulty 0.75. -/
def params : Params :=
  { trialsNumber := 12
    minTrialsPerPhase := 4
    minScore := 100
    maxScore := 200
    minRT := 100
    initialMedianRT := 1000
    gameDifficulty := 3/4 }

/-- Stimulus lifecycle flags (`state.stimulus`); coordinates and sizes
are rendering data and omitted.  `exitDuration` is the constant 200 ms. -/
structure Stimulus where
  visible : Bool
  exiting : Bool
  exitStartTime : ℚ
deriving DecidableEq, Repr

/-- One row of the per-keypress data log (`state.data`).  `rt = none`
encodes the string `"NA"`. -/
structure Record where
  phase : ℕ
  trialType : TrialType
  time : ℚ
  trial : ℕ
  rt : Option ℚ
  threshold : ℚ
  score : ℚ
  scoreChange : ℚ
deriving DecidableEq, Repr

/-- Trial outcome object passed to `finishTrial`. -/
structure Outcome where
  type : TrialType
  points : ℚ
  rt : Option ℚ
  includeInMedian : Bool
  timestamp : Option ℚ
  thresholdUsed : Option ℚ
deriving DecidableEq, Repr

/-- Mutable level-1 session state (`level1.state`), restricted to the
fields the core logic reads or writes.  `nextTimerId` numbers the
`setTimeout` registrations so that each scheduled callback has a unique
handle; a handle field holds `some id` exactly while that callback is
scheduled. -/
structure State where
  gameState : GState
  score : ℚ
  trials : ℕ
  reactionTimes : List ℚ
  data : List Record
  stimulus : Stimulus
  startTime : ℚ
  pendingStimulusTimeoutId : Option ℕ
  currentTrialTimeoutId : Option ℕ
  medianRT : ℚ
  maxRT : ℚ
  phaseIndex : ℕ
  inBreak : Bool
  breakState : BreakState
  breakStartTime : ℚ
  showBreakText : Bool
  phaseRequiredScores : List ℚ
  phaseFloorScore : ℚ
  nextTimerId : ℕ
deriving DecidableEq, Repr

/-- Model of `level1.getEffectiveThreshold`: `medianRT / gameDifficulty`
with the divisor defaulting to 1 unless strictly positive. -/
def getEffectiveThreshold (s : State) : ℚ :=
  let divisor := if 0 < params.gameDifficulty then params.gameDifficulty else 1
  s.medianRT / divisor

/-- Model of `level1.computePhaseTarget(phaseIdx)` (delegating to the
shared adaptive formula with level 1's parameters and the current
presented-trial count). -/
def computePhaseTarget (s : State) (phaseIdx : ℕ) : ℚ :=
  adaptivePhaseTarget params.trialsNumber params.minTrialsPerPhase params.minScore
    (s.trials : ℚ) (phaseIdx : ℚ)

/-- Model of `level1.ensurePhaseTarget`: return the current phase's
stored target, computing and storing it first when it is unset
(falsy or `≤ 0`). -/
def ensurePhaseTarget (s : State) : State × ℚ :=
  let cur := s.phaseRequiredScores.getD s.phaseIndex 0
  if cur ≤ 0 then
    let t := computePhaseTarget s s.phaseIndex
    ({ s with phaseRequiredScores := s.phaseRequiredScores.set s.phaseIndex t }, t)
  else (s, cur)

/-- Model of `level1.startNewTrial`: cancel any pending ISI delay and
schedule a fresh one (the randomized delay duration and stimulus
coordinates are external nondeterminism; the delay firing is the
`Event.delayFired` event). -/
def startNewTrial (s : State) : State :=
  { s with pendingStimulusTimeoutId := some s.nextTimerId
           nextTimerId := s.nextTimerId + 1 }

/-- Model of `level1.startPhaseBreak`: advance the phase, enter the
break overlay sequence, cancel both timers, hide the stimulus, and
raise the floor and score to the new phase's floor. -/
def startPhaseBreak (s : State) (now : ℚ) : State :=
  let s1 : State :=
    { s with phaseIndex := min 2 (s.phaseIndex + 1)
             inBreak := true
             breakState := BreakState.started
             breakStartTime := now
             showBreakText := false
             pendingStimulusTimeoutId := none
             currentTrialTimeoutId := none
             stimulus := { s.stimulus with visible := false, exiting := false } }
  if s1.phaseIndex = 1 then
    let floor := s1.phaseRequiredScores.getD 0 0
    { s1 with phaseFloorScore := floor
              score := floor
              phaseRequiredScores := s1.phaseRequiredScores.set 1 (computePhaseTarget s1 1) }
  else if s1.phaseIndex = 2 then
    let floor := s1.phaseRequiredScores.getD 0 0 + s1.phaseRequiredScores.getD 1 0
    { s1 with phaseFloorScore := floor
              score := floor
              phaseRequiredScores := s1.phaseRequiredScores.set 2 (computePhaseTarget s1 2) }
  else s1

/-- Model of `level1.endLevel`: mark the session done and clear both
timers (listener removal, audio and the end callback are external). -/
def endLevel (s : State) : State :=
  { s with gameState := GState.done
           pendingStimulusTimeoutId := none
           currentTrialTimeoutId := none }

/-- Model of `level1.finishTrial(outcome)`: add the points, clamp the
score to the phase floor, admit the RT to the running median when
requested, append a log record when the outcome carries a timestamp,
then either start a phase break, end the level, or schedule the next
trial depending on the (epsilon-tolerant) target check. -/
def finishTrial (s : State) (outcome : Outcome) (now : ℚ) : State :=
  let s1 : State := { s with score := max (s.score + outcome.points) s.phaseFloorScore }
  let s2 : State :=
    match outcome.includeInMedian, outcome.rt with
    | true, some rt =>
      let rts := s1.reactionTimes ++ [rt]
      { s1 with reactionTimes := rts, medianRT := computeMedian rts s1.medianRT }
    | _, _ => s1
  let s3 : State :=
    match outcome.timestamp with
    | some t =>
      { s2 with data := s2.data ++
          [{ phase := s2.phaseIndex + 1
             trialType := outcome.type
             time := t
             trial := s2.trials
             rt := if outcome.type = TrialType.early then none else outcome.rt
             threshold := outcome.thresholdUsed.getD (getEffectiveThreshold s2)
             score := s2.score
             scoreChange := outcome.points }] }
    | none => s2
  let et := ensurePhaseTarget s3
  let s4 := et.1
  let currentPhaseTarget := et.2
  if s4.phaseFloorScore + currentPhaseTarget ≤ s4.score + epsilon then
    if s4.phaseIndex < 2 then startPhaseBreak s4 now else endLevel s4
  else startNewTrial s4

/-- Model of `level1.resumeFromBreak`: only effective when the break
sequence has reached its `ready` state. -/
def resumeFromBreak (s : State) : State :=
  if s.inBreak ∧ s.breakState = BreakState.ready then
    startNewTrial { s with inBreak := false, breakState := BreakState.idle }
  else s

/-- Model of `level1.updateBreak`: the timed overlay sequence
`started → effects → ready` driven by elapsed break time. -/
def updateBreak (s : State) (now : ℚ) : State :=
  let s1 : State :=
    if s.breakState = BreakState.started ∧ 1000 < now - s.breakStartTime then
      { s with breakState := BreakState.effects }
    else s
  if s1.breakState = BreakState.effects ∧ 2000 < now - s1.breakStartTime then
    { s1 with showBreakText := true, breakState := BreakState.ready }
  else s1

/-- Model of the delay (`setTimeout` in `startNewTrial`) callback body:
show the stimulus, stamp `startTime`, count the trial, snapshot
`maxRT = 2 * medianRT`, and arm the per-trial timeout. -/
def delayCallback (s : State) (now : ℚ) : State :=
  let s1 : State :=
    { s with pendingStimulusTimeoutId := none
             stimulus := { s.stimulus with visible := true, exiting := false }
             startTime := now
             trials := s.trials + 1 }
  let s2 : State := { s1 with maxRT := 2 * s1.medianRT }
  { s2 with currentTrialTimeoutId := some s2.nextTimerId
            nextTimerId := s2.nextTimerId + 1 }

/-- Model of the per-trial timeout callback body in
`level1.startNewTrial`: hide the stimulus, start the exit animation,
and finish the trial as a 0-point `slow` outcome carrying neither an RT
nor a timestamp. -/
def timeoutCallback (s : State) (now : ℚ) : State :=
  let s1 : State := { s with currentTrialTimeoutId := none }
  if s1.gameState ≠ GState.playing then s1
  else
    let s2 : State :=
      if s1.stimulus.visible then
        { s1 with stimulus := { visible := false, exiting := true, exitStartTime := now } }
      else s1
    finishTrial s2
      { type := TrialType.slow, points := 0, rt := none, includeInMedian := false
        timestamp := none, thresholdUsed := none } now

/-- Model of `level1.handleKeyDown`. -/
def handleKeyDown (s : State) (key : Key) (now : ℚ) : State :=
  if s.gameState ≠ GState.playing then s
  else if s.inBreak then
    if key = Key.space then resumeFromBreak s else s
  else if key ≠ Key.arrowDown then s
  else if ¬s.stimulus.visible ∧ ¬s.stimulus.exiting then
    let s1 : State := { s with pendingStimulusTimeoutId := none, currentTrialTimeoutId := none }
    let thresholdUsed := max params.minRT (getEffectiveThreshold s1)
    finishTrial s1
      { type := TrialType.early, points := -params.minScore, rt := none
        includeInMedian := false, timestamp := some now
        thresholdUsed := some thresholdUsed } now
  else if s.stimulus.visible ∧ ¬s.stimulus.exiting then
    let reactionTime := now - s.startTime
    let s1 : State :=
      { s with currentTrialTimeoutId := none
               stimulus := { visible := false, exiting := true, exitStartTime := now } }
    if reactionTime < params.minRT then
      finishTrial s1
        { type := TrialType.early, points := -params.minScore, rt := none
          includeInMedian := false, timestamp := none, thresholdUsed := none } now
    else
      let threshold := max params.minRT (getEffectiveThreshold s1)
      let trialMaxRT := if s1.maxRT ≠ 0 then s1.maxRT else 2 * max s1.medianRT params.minRT
      if threshold < reactionTime then
        finishTrial s1
          { type := TrialType.slow, points := 0, rt := some reactionTime
            includeInMedian := decide (reactionTime ≤ trialMaxRT)
            timestamp := some now, thresholdUsed := some threshold } now
      else
        let clampedRT := max params.minRT (min reactionTime trialMaxRT)
        let nRT := 1 - (clampedRT - params.minRT) / max 1 (trialMaxRT - params.minRT)
        let points := params.minScore + nRT * (params.maxScore - params.minScore)
        finishTrial s1
          { type := TrialType.fast, points := points, rt := some reactionTime
            includeInMedian := true, timestamp := some now
            thresholdUsed := some threshold } now
  else s

/-- Model of the per-frame `level1.update` effects on the core state:
finish the stimulus-exit animation after `exitDuration` (200 ms) and run
the break sequence while in a break (physics, particle and drawing
updates touch only rendering state). -/
def frameUpdate (s : State) (now : ℚ) : State :=
  let s1 : State :=
    if s.stimulus.exiting ∧ 200 ≤ now - s.stimulus.exitStartTime then
      { s with stimulus := { s.stimulus with exiting := false } }
    else s
  if s1.inBreak then updateBreak s1 now else s1

/-- Discrete events driving the level-1 state machine: a scheduled ISI
delay firing, a scheduled per-trial timeout firing, a keypress, or an
animation frame.  A fire event whose id is not the currently scheduled
one models a stale (cleared) timer and must not change the state. -/
inductive Event where
  | delayFired (id : ℕ) (now : ℚ)
  | timeoutFired (id : ℕ) (now : ℚ)
  | keyDown (key : Key) (now : ℚ)
  | frame (now : ℚ)
deriving DecidableEq, Repr

/-- Single event step of the level-1 machine. -/
def step (s : State) (e : Event) : State :=
  match e with
  | Event.delayFired id now =>
    if s.pendingStimulusTimeoutId = some id then delayCallback s now else s
  | Event.timeoutFired id now =>
    if s.currentTrialTimeoutId = some id then timeoutCallback s now else s
  | Event.keyDown key now => handleKeyDown s key now
  | Event.frame now => frameUpdate s now

/-- Model of `level1.start`: the state just after initialization, with
the phase-0 target computed and the first trial scheduled. -/
def initialState : State :=
  let s0 : State :=
    { gameState := GState.playing
      score := 0
      trials := 0
      reactionTimes := []
      data := []
      stimulus := { visible := false, exiting := false, exitStartTime := 0 }
      startTime := 0
      pendingStimulusTimeoutId := none
      currentTrialTimeoutId := none
      medianRT := params.initialMedianRT
      maxRT := 2 * params.initialMedianRT
      phaseIndex := 0
      inBreak := false
      breakState := BreakState.idle
      breakStartTime := 0
      showBreakText := false
      phaseRequiredScores := [0, 0, 0]
      phaseFloorScore := 0
      nextTimerId := 0 }
  startNewTrial { s0 with phaseRequiredScores := [computePhaseTarget s0 0, 0, 0] }

/-- Run the machine over a list of events. -/
def run (s : State) (events : List Event) : State :=
  events.foldl step s

/-- The per-trial maximum RT read by `level1.handleKeyDown`
(`part_007`): the snapshotted `state.maxRT` with a falsy-guard fallback
(`this.state.maxRT || 2 * Math.max(medianRT, minRT)`). -/
def trialMaxRT (s : State) : ℚ :=
  if s.maxRT ≠ 0 then s.maxRT else 2 * max s.medianRT params.minRT

/-- The fast-branch scoring computation of `level1.handleKeyDown`
(`part_007`), as a function of the pre-response state and the reaction
time: clamp the RT to `[minRT, trialMaxRT]`, normalize anchored at
`minRT`, and scale between `minScore` and `maxScore`. -/
def fastPoints (s : State) (reactionTime : ℚ) : ℚ :=
  let trialMaxRT := if s.maxRT ≠ 0 then s.maxRT else 2 * max s.medianRT params.minRT
  let clampedRT := max params.minRT (min reactionTime trialMaxRT)
  let nRT := 1 - (clampedRT - params.minRT) / max 1 (trialMaxRT - params.minRT)
  params.minScore + nRT * (params.maxScore - params.minScore)

/-- Timer discipline invariant of the level-1 machine: scheduled ids are
below the allocation counter, at most one of the ISI-delay and
trial-timeout callbacks is outstanding, no delay is pending while the
stimulus is shown, and no timer at all is pending during a break (nor is
the stimulus visible then). -/
def TimerInv (s : State) : Prop :=
  (∀ id, s.pendingStimulusTimeoutId = some id → id < s.nextTimerId) ∧
  (∀ id, s.currentTrialTimeoutId = some id → id < s.nextTimerId) ∧
  (s.pendingStimulusTimeoutId = none ∨ s.currentTrialTimeoutId = none) ∧
  (s.stimulus.visible = true → s.pendingStimulusTimeoutId = none) ∧
  (s.inBreak = true →
    s.pendingStimulusTimeoutId = none ∧ s.currentTrialTimeoutId = none ∧
    s.stimulus.visible = false)

end Level1

namespace Level2S

/-- Simplified level 2 parameters (`level2.params` in `part_006`);
rendering and physics fields are external. -/
structure Params where
  trialsNumber : ℚ
  minTrialsPerPhase : ℚ
  minScore : ℚ
  maxScore : ℚ
  gameDifficulty : ℚ

/-- The source's parameter values: 6 trials, 4 minimum trials per
phase, 100/200 score bounds, difficulty 1. -/
def params : Params :=
  { trialsNumber := 6
    minTrialsPerPhase := 4
    minScore := 100
    maxScore := 200
    gameDifficulty := 1 }

/-- Stimulus lifecycle flags; coordinates, sizes and exit-animation
geometry are rendering data and omitted. -/
structure Stimulus where
  visible : Bool
  exiting : Bool
  exitStartTime : ℚ
deriving DecidableEq, Repr

/-- One row of the trial data log (`state.data`) in the simplified
level 2: includes the `Error` indicator column.  `rt = none` encodes
`"NA"`. -/
structure Record where
  phase : ℕ
  trialType : TrialType
  time : ℚ
  trial : ℕ
  rt : Option ℚ
  error : ℕ
  threshold : ℚ
  score : ℚ
  scoreChange : ℚ
deriving DecidableEq, Repr

/-- Trial outcome object passed to `finishTrial` (stimulus coordinates
carried by some outcomes are rendering data and omitted). -/
structure Outcome where
  type : TrialType
  points : ℚ
  rt : Option ℚ
  includeInMedian : Bool
  timestamp : Option ℚ
  thresholdUsed : Option ℚ
deriving DecidableEq, Repr

/-- Mutable simplified level-2 session state (`level2.state` in
`part_006`), restricted to the fields the core logic reads or writes.
In `part_006` some cancellation sites call `clearTimeout` without
nulling the handle field; since a cleared id can never fire and every
later read of the field either clears it again (a no-op on a dead id)
or overwrites it, tracking only the scheduled callback in the `Option`
field is observationally faithful. -/
structure State where
  gameState : GState
  score : ℚ
  trials : ℕ
  reactionTimes : List ℚ
  data : List Record
  stimulus : Stimulus
  startTime : ℚ
  pendingStimulusTimeoutId : Option ℕ
  currentTrialTimeoutId : Option ℕ
  medianRT : ℚ
  maxRT : ℚ
  phaseIndex : ℕ
  inBreak : Bool
  breakState : BreakState
  breakStartTime : ℚ
  showBreakText : Bool
  phaseRequiredScores : List ℚ
  phaseFloorScore : ℚ
  nextTimerId : ℕ
deriving DecidableEq, Repr

/-- Model of `level2.getEffectiveThreshold` (`part_006`). -/
def getEffectiveThreshold (s : State) : ℚ :=
  let d := if 0 < params.gameDifficulty then params.gameDifficulty else 1
  s.medianRT / d

/-- Model of `level2.computePhaseTarget` in `part_006` (same adaptive
formula as level 1, with level 2's parameters). -/
def computePhaseTarget (s : State) (phaseIdx : ℕ) : ℚ :=
  adaptivePhaseTarget params.trialsNumber params.minTrialsPerPhase params.minScore
    (s.trials : ℚ) (phaseIdx : ℚ)

/-- Model of `level2.ensurePhaseTarget` (`part_006`). -/
def ensurePhaseTarget (s : State) : State × ℚ :=
  let cur := s.phaseRequiredScores.getD s.phaseIndex 0
  if cur ≤ 0 then
    let t := computePhaseTarget s s.phaseIndex
    ({ s with phaseRequiredScores := s.phaseRequiredScores.set s.phaseIndex t }, t)
  else (s, cur)

/-- Model of `level2.startNewTrial` (`part_006`): cancel any pending ISI
delay and schedule a fresh one. -/
def startNewTrial (s : State) : State :=
  { s with pendingStimulusTimeoutId := some s.nextTimerId
           nextTimerId := s.nextTimerId + 1 }

/-- Model of `level2.startPhaseBreak` (`part_006`). -/
def startPhaseBreak (s : State) (now : ℚ) : State :=
  let s1 : State :=
    { s with phaseIndex := min 2 (s.phaseIndex + 1)
             inBreak := true
             breakState := BreakState.started
             breakStartTime := now
             showBreakText := false
             pendingStimulusTimeoutId := none
             currentTrialTimeoutId := none
             stimulus := { s.stimulus with visible := false, exiting := false } }
  if s1.phaseIndex = 1 then
    let floor := s1.phaseRequiredScores.getD 0 0
    { s1 with phaseFloorScore := floor
              score := floor
              phaseRequiredScores := s1.phaseRequiredScores.set 1 (computePhaseTarget s1 1) }
  else if s1.phaseIndex = 2 then
    let floor := s1.phaseRequiredScores.getD 0 0 + s1.phaseRequiredScores.getD 1 0
    { s1 with phaseFloorScore := floor
              score := floor
              phaseRequiredScores := s1.phaseRequiredScores.set 2 (computePhaseTarget s1 2) }
  else s1

/-- Model of `level2.endLevel` (`part_006`): mark done and clear both
timers (the continue-button overlay and end callback are external). -/
def endLevel (s : State) : State :=
  { s with gameState := GState.done
           pendingStimulusTimeoutId := none
           currentTrialTimeoutId := none }

/-- Model of `level2._checkForPhaseOrLevelEnd` in `part_006`: compare
the score against the ensured phase target with the `1e-6` tolerance,
and either start a phase break, end the level, or schedule the next
trial. -/
def checkForPhaseOrLevelEnd (s : State) (now : ℚ) : State :=
  let et := ensurePhaseTarget s
  let currentPhaseTarget := et.2
  if et.1.phaseFloorScore + currentPhaseTarget ≤ et.1.score + epsilon then
    if et.1.phaseIndex < 2 then startPhaseBreak et.1 now else endLevel et.1
  else startNewTrial et.1

/-- Model of `level2.finishTrial(outcome)` in `part_006`. -/
def finishTrial (s : State) (outcome : Outcome) (now : ℚ) : State :=
  let s1 : State := { s with score := max (s.score + outcome.points) s.phaseFloorScore }
  let s2 : State :=
    match outcome.includeInMedian, outcome.rt with
    | true, some rt =>
      let rts := s1.reactionTimes ++ [rt]
      { s1 with reactionTimes := rts, medianRT := computeMedian rts s1.medianRT }
    | _, _ => s1
  let s3 : State :=
    match outcome.timestamp with
    | some t =>
      { s2 with data := s2.data ++
          [{ phase := s2.phaseIndex + 1
             trialType := outcome.type
             time := t
             trial := s2.trials
             rt := if outcome.type = TrialType.early ∨ outcome.type = TrialType.timeout
                   then none else outcome.rt
             error := if outcome.type = TrialType.early ∨ outcome.type = TrialType.timeout
                      then 1 else 0
             threshold := outcome.thresholdUsed.getD (getEffectiveThreshold s2)
             score := s2.score
             scoreChange := outcome.points }] }
    | none => s2
  checkForPhaseOrLevelEnd s3 now

/-- Model of `level2.resumeFromBreak` (`part_006`). -/
def resumeFromBreak (s : State) : State :=
  if s.inBreak ∧ s.breakState = BreakState.ready then
    startNewTrial { s with inBreak := false, breakState := BreakState.idle }
  else s

/-- Model of `level2.updateBreak` (`part_006`). -/
def updateBreak (s : State) (now : ℚ) : State :=
  let s1 : State :=
    if s.breakState = BreakState.started ∧ 1000 < now - s.breakStartTime then
      { s with breakState := BreakState.effects }
    else s
  if s1.breakState = BreakState.effects ∧ 2000 < now - s1.breakStartTime then
    { s1 with showBreakText := true, breakState := BreakState.ready }
  else s1

/-- Model of the ISI delay callback body in `level2.startNewTrial`
(`part_006`): show the stimulus, stamp `startTime`, count the trial,
snapshot `maxRT = 2 * medianRT`, and arm the per-trial timeout. -/
def delayCallback (s : State) (now : ℚ) : State :=
  let s1 : State :=
    { s with pendingStimulusTimeoutId := none
             stimulus := { s.stimulus with visible := true, exiting := false }
             startTime := now
             trials := s.trials + 1 }
  let s2 : State := { s1 with maxRT := 2 * s1.medianRT }
  { s2 with currentTrialTimeoutId := some s2.nextTimerId
            nextTimerId := s2.nextTimerId + 1 }

/-- Model of the per-trial timeout callback body in
`level2.startNewTrial` (`part_006`): hide the stimulus, start the
timeout exit animation, and finish the trial as a timestamped 0-point
`timeout` outcome. -/
def timeoutCallback (s : State) (now : ℚ) : State :=
  let s1 : State := { s with currentTrialTimeoutId := none }
  if s1.gameState ≠ GState.playing then s1
  else
    let s2 : State :=
      if s1.stimulus.visible then
        { s1 with stimulus := { visible := false, exiting := true, exitStartTime := now } }
      else s1
    finishTrial s2
      { type := TrialType.timeout, points := 0, rt := none, includeInMedian := false
        timestamp := some now, thresholdUsed := none } now

/-- Model of `level2.handleKeyDown` (`part_006`), including the
dev/test shortcut on the S key. -/
def handleKeyDown (s : State) (key : Key) (now : ℚ) : State :=
  if s.gameState ≠ GState.playing then s
  else if key = Key.keyS then
    endLevel { s with pendingStimulusTimeoutId := none, currentTrialTimeoutId := none }
  else if s.inBreak then
    if key = Key.space then resumeFromBreak s else s
  else if key ≠ Key.arrowDown then s
  else if ¬s.stimulus.visible ∧ ¬s.stimulus.exiting then
    let s1 : State := { s with pendingStimulusTimeoutId := none, currentTrialTimeoutId := none }
    let thresholdUsed := getEffectiveThreshold s1
    finishTrial s1
      { type := TrialType.early, points := -params.minScore, rt := none
        includeInMedian := false, timestamp := some now
        thresholdUsed := some thresholdUsed } now
  else if s.stimulus.visible ∧ ¬s.stimulus.exiting then
    let reactionTime := now - s.startTime
    let s1 : State :=
      { s with currentTrialTimeoutId := none
               stimulus := { visible := false, exiting := true, exitStartTime := now } }
    let threshold := getEffectiveThreshold s1
    let trialMaxRT := if s1.maxRT ≠ 0 then s1.maxRT else 2 * s1.medianRT
    if threshold < reactionTime then
      finishTrial s1
        { type := TrialType.slow, points := 0, rt := some reactionTime
          includeInMedian := decide (reactionTime ≤ trialMaxRT)
          timestamp := some now, thresholdUsed := some threshold } now
    else
      let clampedRT := min reactionTime trialMaxRT
      let nRT := 1 - clampedRT / max 1 trialMaxRT
      let points := params.minScore + nRT * (params.maxScore - params.minScore)
      finishTrial s1
        { type := TrialType.fast, points := points, rt := some reactionTime
          includeInMedian := true, timestamp := some now
          thresholdUsed := some threshold } now
  else s

/-- Model of the per-frame `level2.update` effects on the core state
(`part_006`). -/
def frameUpdate (s : State) (now : ℚ) : State :=
  let s1 : State :=
    if s.stimulus.exiting ∧ 200 ≤ now - s.stimulus.exitStartTime then
      { s with stimulus := { s.stimulus with exiting := false } }
    else s
  if s1.inBreak then updateBreak s1 now else s1

/-- Discrete events driving the simplified level-2 machine. -/
inductive Event where
  | delayFired (id : ℕ) (now : ℚ)
  | timeoutFired (id : ℕ) (now : ℚ)
  | keyDown (key : Key) (now : ℚ)
  | frame (now : ℚ)
deriving DecidableEq, Repr

/-- Single event step of the simplified level-2 machine. -/
def step (s : State) (e : Event) : State :=
  match e with
  | Event.delayFired id now =>
    if s.pendingStimulusTimeoutId = some id then delayCallback s now else s
  | Event.timeoutFired id now =>
    if s.currentTrialTimeoutId = some id then timeoutCallback s now else s
  | Event.keyDown key now => handleKeyDown s key now
  | Event.frame now => frameUpdate s now

/-- Model of `level2.start` (`part_006`): the state just after
initialization, with the phase-0 target computed and the first trial
scheduled. -/
def initialState : State :=
  let s0 : State :=
    { gameState := GState.playing
      score := 0
      trials := 0
      reactionTimes := []
      data := []
      stimulus := { visible := false, exiting := false, exitStartTime := 0 }
      startTime := 0
      pendingStimulusTimeoutId := none
      currentTrialTimeoutId := none
      medianRT := 1000
      maxRT := 2000
      phaseIndex := 0
      inBreak := false
      breakState := BreakState.idle
      breakStartTime := 0
      showBreakText := false
      phaseRequiredScores := [0, 0, 0]
      phaseFloorScore := 0
      nextTimerId := 0 }
  startNewTrial { s0 with phaseRequiredScores := [computePhaseTarget s0 0, 0, 0] }

/-- Run the machine over a list of events. -/
def run (s : State) (events : List Event) : State :=
  events.foldl step s

/-- The per-trial maximum RT read by `level2.handleKeyDown`
(`part_006`): `this.state.maxRT || 2 * this.state.medianRT`. -/
def trialMaxRT (s : State) : ℚ :=
  if s.maxRT ≠ 0 then s.maxRT else 2 * s.medianRT

/-- The fast-branch scoring computation of `level2.handleKeyDown`
(`part_006`): clamp the RT to the per-trial `maxRT` and normalize by
`max 1 maxRT`. -/
def fastPoints (s : State) (reactionTime : ℚ) : ℚ :=
  let trialMaxRT := if s.maxRT ≠ 0 then s.maxRT else 2 * s.medianRT
  let clampedRT := min reactionTime trialMaxRT
  let nRT := 1 - clampedRT / max 1 trialMaxRT
  params.minScore + nRT * (params.maxScore - params.minScore)

end Level2S

namespace Level2D

/-- Arrow orientation of the directional stimulus
(`state.stimulus.side`): always `"left"` or `"right"`. -/
inductive Side where
  | left
  | right
deriving DecidableEq, Repr

/-- Directional level 2 parameters (`level2.params` in
`src/game/levels/level2.js`); rendering, physics and conflict-proportion
fields are external to the claims modelled here. -/
structure Params where
  trialsNumber : ℚ
  minTrialsPerPhase : ℚ
  minScore : ℚ
  maxScore : ℚ
  gameDifficulty : ℚ

/-- The source's parameter values: 18 trials, 100/200 score bounds,
difficulty 1. -/
def params : Params :=
  { trialsNumber := 18
    minTrialsPerPhase := 4
    minScore := 100
    maxScore := 200
    gameDifficulty := 1 }

/-- Stimulus lifecycle flags plus the directional side; spawn region,
conflict difficulty tag, coordinates and sprite are rendering/logging
metadata not needed by the modelled claims. -/
structure Stimulus where
  visible : Bool
  exiting : Bool
  exitStartTime : ℚ
  side : Side
deriving DecidableEq, Repr

/-- One row of the trial data log in the directional level 2, restricted
to the behaviourally relevant columns (`StimulusRegion`, `Difficulty`
and the sprite metadata are omitted). -/
structure Record where
  phase : ℕ
  trialType : TrialType
  time : ℚ
  trial : ℕ
  rt : Option ℚ
  error : ℕ
  threshold : ℚ
  score : ℚ
  scoreChange : ℚ
  responseKey : Option Key
  correct : Option Bool
deriving DecidableEq, Repr

/-- Trial outcome object passed to `finishTrial` in the directional
level 2: additionally carries the response key and a correctness flag
(`none` models the `undefined` of outcomes that have no direction). -/
structure Outcome where
  type : TrialType
  points : ℚ
  rt : Option ℚ
  includeInMedian : Bool
  timestamp : Option ℚ
  thresholdUsed : Option ℚ
  responseKey : Option Key
  correct : Option Bool
deriving DecidableEq, Repr

/-- Mutable directional level-2 session state, restricted to the fields
the core logic reads or writes. -/
structure State where
  gameState : GState
  score : ℚ
  trials : ℕ
  reactionTimes : List ℚ
  data : List Record
  stimulus : Stimulus
  startTime : ℚ
  pendingStimulusTimeoutId : Option ℕ
  currentTrialTimeoutId : Option ℕ
  medianRT : ℚ
  maxRT : ℚ
  phaseIndex : ℕ
  inBreak : Bool
  breakState : BreakState
  breakStartTime : ℚ
  showBreakText : Bool
  phaseRequiredScores : List ℚ
  phaseFloorScore : ℚ
  nextTimerId : ℕ
deriving DecidableEq, Repr

/-- Model of `level2.getEffectiveThreshold` (`level2.js`). -/
def getEffectiveThreshold (s : State) : ℚ :=
  let d := if 0 < params.gameDifficulty then params.gameDifficulty else 1
  s.medianRT / d

/-- Model of `level2.computePhaseTarget` in `level2.js` (the simplified
fixed per-phase target; the phase index argument is ignored by the
source as well). -/
def computePhaseTarget (_s : State) (_phaseIdx : ℕ) : ℚ :=
  fixedPhaseTarget params.trialsNumber params.minScore

/-- Model of `level2.ensurePhaseTarget` in `level2.js`: all targets are
precomputed, so this just reads the current phase's entry. -/
def ensurePhaseTarget (s : State) : ℚ :=
  s.phaseRequiredScores.getD s.phaseIndex 0

/-- Model of `level2.startNewTrial` (`level2.js`): cancel any pending
ISI delay and schedule a fresh one (the per-trial region/side draw
happens in the delay callback). -/
def startNewTrial (s : State) : State :=
  { s with pendingStimulusTimeoutId := some s.nextTimerId
           nextTimerId := s.nextTimerId + 1 }

/-- Model of `level2.startPhaseBreak` (`level2.js`), which cancels both
timers through `DoggoNogoCore.clearTrialTimers`. -/
def startPhaseBreak (s : State) (now : ℚ) : State :=
  let s1 : State :=
    { s with phaseIndex := min 2 (s.phaseIndex + 1)
             inBreak := true
             breakState := BreakState.started
             breakStartTime := now
             showBreakText := false
             pendingStimulusTimeoutId := none
             currentTrialTimeoutId := none
             stimulus := { s.stimulus with visible := false, exiting := false } }
  if s1.phaseIndex = 1 then
    let floor := s1.phaseRequiredScores.getD 0 0
    { s1 with phaseFloorScore := floor
              score := floor
              phaseRequiredScores := s1.phaseRequiredScores.set 1 (computePhaseTarget s1 1) }
  else if s1.phaseIndex = 2 then
    let floor := s1.phaseRequiredScores.getD 0 0 + s1.phaseRequiredScores.getD 1 0
    { s1 with phaseFloorScore := floor
              score := floor
              phaseRequiredScores := s1.phaseRequiredScores.set 2 (computePhaseTarget s1 2) }
  else s1

/-- Model of `level2.endLevel` (`level2.js`). -/
def endLevel (s : State) : State :=
  { s with gameState := GState.done
           pendingStimulusTimeoutId := none
           currentTrialTimeoutId := none }

/-- Model of `level2.finishTrial(outcome)` in `level2.js`: as in the
simplified variant, but the running median is only updated by outcomes
not explicitly marked incorrect. -/
def finishTrial (s : State) (outcome : Outcome) (now : ℚ) : State :=
  let s1 : State := { s with score := max (s.score + outcome.points) s.phaseFloorScore }
  let s2 : State :=
    match outcome.includeInMedian, outcome.rt with
    | true, some rt =>
      if outcome.correct ≠ some false then
        let rts := s1.reactionTimes ++ [rt]
        { s1 with reactionTimes := rts, medianRT := computeMedian rts s1.medianRT }
      else s1
    | _, _ => s1
  let s3 : State :=
    match outcome.timestamp with
    | some t =>
      let isErr := outcome.type = TrialType.early ∨ outcome.type = TrialType.timeout ∨
        outcome.type = TrialType.error
      { s2 with data := s2.data ++
          [{ phase := s2.phaseIndex + 1
             trialType := outcome.type
             time := t
             trial := s2.trials
             rt := if isErr then none else outcome.rt
             error := if isErr then 1 else 0
             threshold := outcome.thresholdUsed.getD (getEffectiveThreshold s2)
             score := s2.score
             scoreChange := outcome.points
             responseKey := outcome.responseKey
             correct := outcome.correct }] }
    | none => s2
  let currentPhaseTarget := ensurePhaseTarget s3
  if s3.phaseFloorScore + currentPhaseTarget ≤ s3.score + epsilon then
    if s3.phaseIndex < 2 then startPhaseBreak s3 now else endLevel s3
  else startNewTrial s3

/-- Model of `level2.resumeFromBreak` (`level2.js`). -/
def resumeFromBreak (s : State) : State :=
  if s.inBreak ∧ s.breakState = BreakState.ready then
    startNewTrial { s with inBreak := false, breakState := BreakState.idle }
  else s

/-- Model of the ISI delay callback body in `level2.startNewTrial`
(`level2.js`); the randomly drawn arrow side is an event input, and the
spawn region/difficulty draw affects only logging metadata that is not
modelled. -/
def delayCallback (s : State) (side : Side) (now : ℚ) : State :=
  let s1 : State :=
    { s with pendingStimulusTimeoutId := none
             stimulus := { visible := true, exiting := false,
                           exitStartTime := s.stimulus.exitStartTime, side := side }
             startTime := now
             trials := s.trials + 1 }
  let s2 : State := { s1 with maxRT := 2 * s1.medianRT }
  { s2 with currentTrialTimeoutId := some s2.nextTimerId
            nextTimerId := s2.nextTimerId + 1 }

/-- Model of the per-trial timeout callback body in
`level2.startNewTrial` (`level2.js`). -/
def timeoutCallback (s : State) (now : ℚ) : State :=
  let s1 : State := { s with currentTrialTimeoutId := none }
  if s1.gameState ≠ GState.playing then s1
  else
    let s2 : State :=
      if s1.stimulus.visible then
        { s1 with stimulus := { s1.stimulus with
            visible := false, exiting := true, exitStartTime := now } }
      else s1
    finishTrial s2
      { type := TrialType.timeout, points := 0, rt := none, includeInMedian := false
        timestamp := some now, thresholdUsed := none
        responseKey := none, correct := none } now

/-- Model of `level2.isResponseKey` (`level2.js`). -/
def isResponseKey (key : Key) : Bool :=
  key = Key.arrowLeft ∨ key = Key.arrowRight

/-- Model of `level2.handleKeyDown` (`level2.js`). -/
def handleKeyDown (s : State) (key : Key) (now : ℚ) : State :=
  if s.gameState ≠ GState.playing then s
  else if key = Key.keyS then
    endLevel { s with pendingStimulusTimeoutId := none, currentTrialTimeoutId := none }
  else if s.inBreak then
    if key = Key.space then resumeFromBreak s else s
  else if ¬isResponseKey key then s
  else if ¬s.stimulus.visible ∧ ¬s.stimulus.exiting then
    let s1 : State := { s with pendingStimulusTimeoutId := none, currentTrialTimeoutId := none }
    let thresholdUsed := getEffectiveThreshold s1
    finishTrial s1
      { type := TrialType.early, points := -params.minScore, rt := none
        includeInMedian := false, timestamp := some now
        thresholdUsed := some thresholdUsed, responseKey := none, correct := none } now
  else if s.stimulus.visible ∧ ¬s.stimulus.exiting then
    let reactionTime := now - s.startTime
    let s1 : State :=
      { s with currentTrialTimeoutId := none
               stimulus := { s.stimulus with
                 visible := false, exiting := true, exitStartTime := now } }
    let threshold := getEffectiveThreshold s1
    let trialMaxRT := if s1.maxRT ≠ 0 then s1.maxRT else 2 * s1.medianRT
    let correct := (key = Key.arrowLeft ∧ s1.stimulus.side = Side.left) ∨
      (key = Key.arrowRight ∧ s1.stimulus.side = Side.right)
    if ¬correct then
      finishTrial s1
        { type := TrialType.error, points := -params.minScore / 2, rt := none
          includeInMedian := false, timestamp := some now
          thresholdUsed := some threshold, responseKey := some key
          correct := some false } now
    else if threshold < reactionTime then
      finishTrial s1
        { type := TrialType.slow, points := params.minScore / 2, rt := some reactionTime
          includeInMedian := decide (reactionTime ≤ trialMaxRT)
          timestamp := some now, thresholdUsed := some threshold
          responseKey := some key, correct := some true } now
    else
      let clampedRT := min reactionTime trialMaxRT
      let nRT := 1 - clampedRT / max 1 trialMaxRT
      let points := params.minScore + nRT * (params.maxScore - params.minScore)
      finishTrial s1
        { type := TrialType.fast, points := points, rt := some reactionTime
          includeInMedian := true, timestamp := some now
          thresholdUsed := some threshold, responseKey := some key
          correct := some true } now
  else s

/-- The per-trial maximum RT read by `level2.handleKeyDown`
(`level2.js`): `this.state.maxRT || 2 * this.state.medianRT`. -/
def trialMaxRT (s : State) : ℚ :=
  if s.maxRT ≠ 0 then s.maxRT else 2 * s.medianRT

/-- Model of `level2.start` (`level2.js`): all three phase targets are
precomputed to the fixed value before the first trial is scheduled. -/
def initialState : State :=
  let t := fixedPhaseTarget params.trialsNumber params.minScore
  startNewTrial
    { gameState := GState.playing
      score := 0
      trials := 0
      reactionTimes := []
      data := []
      stimulus := { visible := false, exiting := false, exitStartTime := 0, side := Side.left }
      startTime := 0
      pendingStimulusTimeoutId := none
      currentTrialTimeoutId := none
      medianRT := 1000
      maxRT := 2000
      phaseIndex := 0
      inBreak := false
      breakState := BreakState.idle
      breakStartTime := 0
      showBreakText := false
      phaseRequiredScores := [t, t, t]
      phaseFloorScore := 0
      nextTimerId := 0 }

end Level2D

/-! ## Helper lemmas -/

theorem computeMedian_eq_textbookMedian (l : List ℚ) (m : ℚ) (h : l ≠ []) :
    computeMedian l m = textbookMedian l := by
  match l with
  | [] => exact absurd rfl h
  | x :: xs =>
    simp only [computeMedian, textbookMedian]
    have hmod : ((List.insertionSort (· ≤ ·) (x :: xs)).length % 2 ≠ 0) ↔
        ((List.insertionSort (· ≤ ·) (x :: xs)).length % 2 = 1) := by
      omega
    by_cases hodd : (List.insertionSort (· ≤ ·) (x :: xs)).length % 2 = 1
    · rw [if_pos (hmod.mpr hodd), if_pos hodd]
    · rw [if_neg (fun hne => hodd (hmod.mp hne)), if_neg hodd]

namespace Level1

theorem startPhaseBreak_score_eq_floor_l1 (s : State) (now : ℚ) :
    (startPhaseBreak s now).score = (startPhaseBreak s now).phaseFloorScore := by
  simp only [startPhaseBreak]
  split_ifs with h1 h2
  · rfl
  · rfl
  · simp only at h1 h2
    omega

theorem startPhaseBreak_reactionTimes_l1 (s : State) (now : ℚ) :
    (startPhaseBreak s now).reactionTimes = s.reactionTimes := by
  simp only [startPhaseBreak]
  split_ifs <;> rfl

theorem startPhaseBreak_medianRT_l1 (s : State) (now : ℚ) :
    (startPhaseBreak s now).medianRT = s.medianRT := by
  simp only [startPhaseBreak]
  split_ifs <;> rfl

theorem startPhaseBreak_data_l1 (s : State) (now : ℚ) :
    (startPhaseBreak s now).data = s.data := by
  simp only [startPhaseBreak]
  split_ifs <;> rfl

theorem startPhaseBreak_phaseIndex_l1 (s : State) (now : ℚ) :
    (startPhaseBreak s now).phaseIndex = min 2 (s.phaseIndex + 1) := by
  simp only [startPhaseBreak]
  split_ifs <;> rfl

theorem ensurePhaseTarget_proj (s : State) :
    (ensurePhaseTarget s).1.score = s.score ∧
    (ensurePhaseTarget s).1.phaseFloorScore = s.phaseFloorScore ∧
    (ensurePhaseTarget s).1.reactionTimes = s.reactionTimes ∧
    (ensurePhaseTarget s).1.medianRT = s.medianRT ∧
    (ensurePhaseTarget s).1.data = s.data ∧
    (ensurePhaseTarget s).1.phaseIndex = s.phaseIndex := by
  simp only [ensurePhaseTarget]
  split_ifs <;> exact ⟨rfl, rfl, rfl, rfl, rfl, rfl⟩

theorem finishTrial_floor_le_score_l1 (s : State) (o : Outcome) (now : ℚ) :
    (finishTrial s o now).phaseFloorScore ≤ (finishTrial s o now).score := by
  obtain ⟨ty, pts, ort, inc, ts, th⟩ := o
  simp only [finishTrial]
  cases inc <;> cases ort <;> cases ts <;>
    simp only [ensurePhaseTarget] <;>
    split_ifs <;>
    first
      | (rw [startPhaseBreak_score_eq_floor_l1])
      | simp [endLevel, startNewTrial, le_max_right]

theorem startPhaseBreak_timers_l1 (s : State) (now : ℚ) :
    (startPhaseBreak s now).pendingStimulusTimeoutId = none ∧
    (startPhaseBreak s now).currentTrialTimeoutId = none ∧
    (startPhaseBreak s now).nextTimerId = s.nextTimerId ∧
    (startPhaseBreak s now).inBreak = true ∧
    (startPhaseBreak s now).stimulus.visible = false ∧
    (startPhaseBreak s now).gameState = s.gameState := by
  simp only [startPhaseBreak]
  split_ifs <;> exact ⟨rfl, rfl, rfl, rfl, rfl, rfl⟩

theorem finishTrial_timers_l1 (s : State) (o : Outcome) (now : ℚ) :
    ((finishTrial s o now).pendingStimulusTimeoutId = some s.nextTimerId ∧
     (finishTrial s o now).currentTrialTimeoutId = s.currentTrialTimeoutId ∧
     (finishTrial s o now).nextTimerId = s.nextTimerId + 1 ∧
     (finishTrial s o now).inBreak = s.inBreak ∧
     (finishTrial s o now).stimulus.visible = s.stimulus.visible ∧
     (finishTrial s o now).gameState = s.gameState) ∨
    ((finishTrial s o now).pendingStimulusTimeoutId = none ∧
     (finishTrial s o now).currentTrialTimeoutId = none ∧
     (finishTrial s o now).nextTimerId = s.nextTimerId ∧
     (finishTrial s o now).inBreak = true ∧
     (finishTrial s o now).stimulus.visible = false ∧
     (finishTrial s o now).gameState = s.gameState) ∨
    ((finishTrial s o now).pendingStimulusTimeoutId = none ∧
     (finishTrial s o now).currentTrialTimeoutId = none ∧
     (finishTrial s o now).nextTimerId = s.nextTimerId ∧
     (finishTrial s o now).inBreak = s.inBreak ∧
     (finishTrial s o now).stimulus.visible = s.stimulus.visible ∧
     (finishTrial s o now).gameState = GState.done) := by
  obtain ⟨ty, pts, ort, inc, ts, th⟩ := o
  simp only [finishTrial]
  cases inc <;> cases ort <;> cases ts <;>
    simp only [ensurePhaseTarget] <;>
    split_ifs <;>
    first
      | (right; left; exact (startPhaseBreak_timers_l1 _ _))
      | (right; right; exact ⟨rfl, rfl, rfl, rfl, rfl, rfl⟩)
      | (left; exact ⟨rfl, rfl, rfl, rfl, rfl, rfl⟩)

theorem finishTrial_median_of_include_l1 (s : State) (o : Outcome) (now r : ℚ)
    (h1 : o.includeInMedian = true) (h2 : o.rt = some r) :
    (finishTrial s o now).reactionTimes = s.reactionTimes ++ [r] ∧
    (finishTrial s o now).medianRT = computeMedian (s.reactionTimes ++ [r]) s.medianRT := by
  obtain ⟨ty, pts, ort, inc, ts, th⟩ := o
  simp only at h1 h2
  subst h1
  subst h2
  simp only [finishTrial]
  cases ts <;>
    simp only [ensurePhaseTarget] <;>
    split_ifs <;>
    simp [startPhaseBreak_reactionTimes_l1, startPhaseBreak_medianRT_l1, endLevel, startNewTrial]

theorem finishTrial_median_of_not_include_l1 (s : State) (o : Outcome) (now : ℚ)
    (h1 : o.includeInMedian = false) :
    (finishTrial s o now).reactionTimes = s.reactionTimes ∧
    (finishTrial s o now).medianRT = s.medianRT := by
  obtain ⟨ty, pts, ort, inc, ts, th⟩ := o
  simp only at h1
  subst h1
  simp only [finishTrial]
  cases ort <;> cases ts <;>
    simp only [ensurePhaseTarget] <;>
    split_ifs <;>
    simp [startPhaseBreak_reactionTimes_l1, startPhaseBreak_medianRT_l1, endLevel, startNewTrial]

theorem finishTrial_data_of_no_timestamp (s : State) (o : Outcome) (now : ℚ)
    (h1 : o.timestamp = none) :
    (finishTrial s o now).data = s.data := by
  obtain ⟨ty, pts, ort, inc, ts, th⟩ := o
  simp only at h1
  subst h1
  simp only [finishTrial]
  cases inc <;> cases ort <;>
    simp only [ensurePhaseTarget] <;>
    split_ifs <;>
    simp [startPhaseBreak_data_l1, endLevel, startNewTrial]

theorem finishTrial_data_of_timestamp_l1 (s : State) (o : Outcome) (now t thv : ℚ)
    (h1 : o.timestamp = some t) (h2 : o.thresholdUsed = some thv) :
    (finishTrial s o now).data = s.data ++
      [{ phase := s.phaseIndex + 1
         trialType := o.type
         time := t
         trial := s.trials
         rt := if o.type = TrialType.early then none else o.rt
         threshold := thv
         score := max (s.score + o.points) s.phaseFloorScore
         scoreChange := o.points }] := by
  obtain ⟨ty, pts, ort, inc, ts, th⟩ := o
  simp only at h1 h2
  subst h1
  subst h2
  simp only [finishTrial]
  cases inc <;> cases ort <;>
    simp only [ensurePhaseTarget] <;>
    split_ifs <;>
    simp [startPhaseBreak_data_l1, endLevel, startNewTrial]

theorem finishTrial_inv (s : State) (o : Outcome) (now : ℚ)
    (hct : s.currentTrialTimeoutId = none) (hvis : s.stimulus.visible = false)
    (hbr : s.inBreak = false) : TimerInv (finishTrial s o now) := by
  rcases finishTrial_timers_l1 s o now with ⟨h1, h2, h3, h4, h5, _⟩ | ⟨h1, h2, h3, h4, h5, _⟩ |
    ⟨h1, h2, h3, h4, h5, _⟩
  · refine ⟨?_, ?_, Or.inr (h2.trans hct), ?_, ?_⟩
    · intro id hid
      rw [h1] at hid
      rw [h3]
      injection hid with hid
      omega
    · intro id hid
      rw [h2, hct] at hid
      exact absurd hid (by simp)
    · intro hv
      rw [h5, hvis] at hv
      exact absurd hv (by simp)
    · intro hb
      rw [h4, hbr] at hb
      exact absurd hb (by simp)
  · refine ⟨?_, ?_, Or.inl h1, fun _ => h1, fun _ => ⟨h1, h2, h5⟩⟩
    · intro id hid
      rw [h1] at hid
      exact absurd hid (by simp)
    · intro id hid
      rw [h2] at hid
      exact absurd hid (by simp)
  · refine ⟨?_, ?_, Or.inl h1, fun _ => h1, ?_⟩
    · intro id hid
      rw [h1] at hid
      exact absurd hid (by simp)
    · intro id hid
      rw [h2] at hid
      exact absurd hid (by simp)
    · intro hb
      rw [h4, hbr] at hb
      exact absurd hb (by simp)

theorem step_timerInv (s : State) (e : Event) (h : TimerInv s) : TimerInv (step s e) := by
  obtain ⟨hwd, hwt, hone, hvd, hbk⟩ := h
  cases e with
  | delayFired id now =>
    by_cases hen : s.pendingStimulusTimeoutId = some id
    · have hstep : step s (Event.delayFired id now) = delayCallback s now := if_pos hen
      rw [hstep]
      refine ⟨?_, ?_, Or.inl rfl, fun _ => rfl, ?_⟩
      · intro i hi
        have hi2 : (none : Option ℕ) = some i := hi
        exact absurd hi2 (by simp)
      · intro i hi
        have hi2 : some s.nextTimerId = some i := hi
        injection hi2 with hi2
        show i < s.nextTimerId + 1
        omega
      · intro hb
        have hb2 : s.inBreak = true := hb
        obtain ⟨hp, _, _⟩ := hbk hb2
        rw [hp] at hen
        exact absurd hen (by simp)
    · have hstep : step s (Event.delayFired id now) = s := if_neg hen
      rw [hstep]
      exact ⟨hwd, hwt, hone, hvd, hbk⟩
  | timeoutFired id now =>
    by_cases hen : s.currentTrialTimeoutId = some id
    · have hstep : step s (Event.timeoutFired id now) = timeoutCallback s now := if_pos hen
      rw [hstep]
      have hbrf : s.inBreak = false := by
        cases hhb : s.inBreak
        · rfl
        · obtain ⟨_, hcn, _⟩ := hbk hhb
          rw [hcn] at hen
          exact absurd hen (by simp)
      simp only [timeoutCallback]
      split_ifs with hgs hvs
      · refine ⟨?_, ?_, Or.inr rfl, ?_, ?_⟩
        · intro i hi
          have hi2 : s.pendingStimulusTimeoutId = some i := hi
          exact hwd i hi2
        · intro i hi
          have hi2 : (none : Option ℕ) = some i := hi
          exact absurd hi2 (by simp)
        · intro hv
          exact hvd hv
        · intro hb
          obtain ⟨hp, _, hv⟩ := hbk hb
          exact ⟨hp, rfl, hv⟩
      · exact finishTrial_inv _ _ _ rfl rfl hbrf
      · refine finishTrial_inv _ _ _ rfl ?_ hbrf
        simpa using hvs
    · have hstep : step s (Event.timeoutFired id now) = s := if_neg hen
      rw [hstep]
      exact ⟨hwd, hwt, hone, hvd, hbk⟩
  | keyDown key now =>
    show TimerInv (handleKeyDown s key now)
    simp only [handleKeyDown]
    split_ifs with hgs hbr hsp <;>
      first
        | exact ⟨hwd, hwt, hone, hvd, hbk⟩
        | ( -- resume-from-break path
           simp only [resumeFromBreak]
           split_ifs with hrb
           · obtain ⟨hp, hc, hv⟩ := hbk (by simpa using hrb.1)
             refine ⟨?_, ?_, Or.inr hc, ?_, ?_⟩
             · intro i hi
               have hi2 : some s.nextTimerId = some i := hi
               injection hi2 with hi2
               show i < s.nextTimerId + 1
               omega
             · intro i hi
               have hi2 : s.currentTrialTimeoutId = some i := hi
               rw [hc] at hi2
               exact absurd hi2 (by simp)
             · intro hv2
               have hv3 : s.stimulus.visible = true := hv2
               rw [hv] at hv3
               exact absurd hv3 (by simp)
             · intro hb
               have hb2 : false = true := hb
               exact absurd hb2 (by simp)
           · exact ⟨hwd, hwt, hone, hvd, hbk⟩)
        | (refine finishTrial_inv _ _ _ rfl ?_ ?_ <;> simp_all)
  | frame now =>
    show TimerInv (frameUpdate s now)
    simp only [frameUpdate, updateBreak]
    split_ifs <;> exact ⟨hwd, hwt, hone, hvd, hbk⟩

theorem cancel_after_finish (s1 : State) (o : Outcome) (now : ℚ) (id : ℕ)
    (hc : s1.currentTrialTimeoutId = none) (hid : id < s1.nextTimerId) :
    (finishTrial s1 o now).currentTrialTimeoutId ≠ some id ∧
    (finishTrial s1 o now).pendingStimulusTimeoutId ≠ some id := by
  rcases finishTrial_timers_l1 s1 o now with ⟨h1, h2, _⟩ | ⟨h1, h2, _⟩ | ⟨h1, h2, _⟩ <;>
    constructor <;>
    first
      | (rw [h2, hc]; simp)
      | (rw [h2]; simp)
      | (rw [h1]; simp; omega)
      | (rw [h1]; simp)

theorem timeoutCallback_spec_l1 (s : State) (now : ℚ)
    (hplay : s.gameState = GState.playing) (hvis : s.stimulus.visible = true) :
    timeoutCallback s now =
      finishTrial
        { s with currentTrialTimeoutId := none
                 stimulus := { visible := false, exiting := true, exitStartTime := now } }
        { type := TrialType.slow, points := 0, rt := none, includeInMedian := false
          timestamp := none, thresholdUsed := none } now ∧
    (timeoutCallback s now).reactionTimes = s.reactionTimes ∧
    (timeoutCallback s now).medianRT = s.medianRT ∧
    (timeoutCallback s now).data = s.data := by
  have heq : timeoutCallback s now =
      finishTrial
        { s with currentTrialTimeoutId := none
                 stimulus := { visible := false, exiting := true, exitStartTime := now } }
        { type := TrialType.slow, points := 0, rt := none, includeInMedian := false
          timestamp := none, thresholdUsed := none } now := by
    simp only [timeoutCallback, hplay, hvis]
    simp
  refine ⟨heq, ?_, ?_, ?_⟩
  · rw [heq]
    exact (finishTrial_median_of_not_include_l1 _ _ _ rfl).1
  · rw [heq]
    exact (finishTrial_median_of_not_include_l1 _ _ _ rfl).2
  · rw [heq]
    exact finishTrial_data_of_no_timestamp _ _ _ rfl

end Level1

namespace Level2S

theorem startPhaseBreak_score_eq_floor_l2s (s : State) (now : ℚ) :
    (startPhaseBreak s now).score = (startPhaseBreak s now).phaseFloorScore := by
  simp only [startPhaseBreak]
  split_ifs with h1 h2
  · rfl
  · rfl
  · simp only at h1 h2
    omega

theorem startPhaseBreak_reactionTimes_l2s (s : State) (now : ℚ) :
    (startPhaseBreak s now).reactionTimes = s.reactionTimes := by
  simp only [startPhaseBreak]
  split_ifs <;> rfl

theorem startPhaseBreak_medianRT_l2s (s : State) (now : ℚ) :
    (startPhaseBreak s now).medianRT = s.medianRT := by
  simp only [startPhaseBreak]
  split_ifs <;> rfl

theorem startPhaseBreak_data_l2s (s : State) (now : ℚ) :
    (startPhaseBreak s now).data = s.data := by
  simp only [startPhaseBreak]
  split_ifs <;> rfl

theorem startPhaseBreak_phaseIndex_l2s (s : State) (now : ℚ) :
    (startPhaseBreak s now).phaseIndex = min 2 (s.phaseIndex + 1) := by
  simp only [startPhaseBreak]
  split_ifs <;> rfl

theorem finishTrial_floor_le_score_l2s (s : State) (o : Outcome) (now : ℚ) :
    (finishTrial s o now).phaseFloorScore ≤ (finishTrial s o now).score := by
  obtain ⟨ty, pts, ort, inc, ts, th⟩ := o
  simp only [finishTrial, checkForPhaseOrLevelEnd]
  cases inc <;> cases ort <;> cases ts <;>
    simp only [ensurePhaseTarget] <;>
    split_ifs <;>
    first
      | (rw [startPhaseBreak_score_eq_floor_l2s])
      | simp [endLevel, startNewTrial, le_max_right]

theorem startPhaseBreak_timers_l2s (s : State) (now : ℚ) :
    (startPhaseBreak s now).pendingStimulusTimeoutId = none ∧
    (startPhaseBreak s now).currentTrialTimeoutId = none ∧
    (startPhaseBreak s now).nextTimerId = s.nextTimerId ∧
    (startPhaseBreak s now).inBreak = true ∧
    (startPhaseBreak s now).stimulus.visible = false ∧
    (startPhaseBreak s now).gameState = s.gameState := by
  simp only [startPhaseBreak]
  split_ifs <;> exact ⟨rfl, rfl, rfl, rfl, rfl, rfl⟩

theorem finishTrial_timers_l2s (s : State) (o : Outcome) (now : ℚ) :
    ((finishTrial s o now).pendingStimulusTimeoutId = some s.nextTimerId ∧
     (finishTrial s o now).currentTrialTimeoutId = s.currentTrialTimeoutId ∧
     (finishTrial s o now).nextTimerId = s.nextTimerId + 1 ∧
     (finishTrial s o now).inBreak = s.inBreak ∧
     (finishTrial s o now).stimulus.visible = s.stimulus.visible ∧
     (finishTrial s o now).gameState = s.gameState) ∨
    ((finishTrial s o now).pendingStimulusTimeoutId = none ∧
     (finishTrial s o now).currentTrialTimeoutId = none ∧
     (finishTrial s o now).nextTimerId = s.nextTimerId ∧
     (finishTrial s o now).inBreak = true ∧
     (finishTrial s o now).stimulus.visible = false ∧
     (finishTrial s o now).gameState = s.gameState) ∨
    ((finishTrial s o now).pendingStimulusTimeoutId = none ∧
     (finishTrial s o now).currentTrialTimeoutId = none ∧
     (finishTrial s o now).nextTimerId = s.nextTimerId ∧
     (finishTrial s o now).inBreak = s.inBreak ∧
     (finishTrial s o now).stimulus.visible = s.stimulus.visible ∧
     (finishTrial s o now).gameState = GState.done) := by
  obtain ⟨ty, pts, ort, inc, ts, th⟩ := o
  simp only [finishTrial, checkForPhaseOrLevelEnd]
  cases inc <;> cases ort <;> cases ts <;>
    simp only [ensurePhaseTarget] <;>
    split_ifs <;>
    first
      | (right; left; exact (startPhaseBreak_timers_l2s _ _))
      | (right; right; exact ⟨rfl, rfl, rfl, rfl, rfl, rfl⟩)
      | (left; exact ⟨rfl, rfl, rfl, rfl, rfl, rfl⟩)

theorem finishTrial_median_of_include_l2s (s : State) (o : Outcome) (now r : ℚ)
    (h1 : o.includeInMedian = true) (h2 : o.rt = some r) :
    (finishTrial s o now).reactionTimes = s.reactionTimes ++ [r] ∧
    (finishTrial s o now).medianRT = computeMedian (s.reactionTimes ++ [r]) s.medianRT := by
  obtain ⟨ty, pts, ort, inc, ts, th⟩ := o
  simp only at h1 h2
  subst h1
  subst h2
  simp only [finishTrial, checkForPhaseOrLevelEnd]
  cases ts <;>
    simp only [ensurePhaseTarget] <;>
    split_ifs <;>
    simp [startPhaseBreak_reactionTimes_l2s, startPhaseBreak_medianRT_l2s, endLevel, startNewTrial]

theorem finishTrial_median_of_not_include_l2s (s : State) (o : Outcome) (now : ℚ)
    (h1 : o.includeInMedian = false) :
    (finishTrial s o now).reactionTimes = s.reactionTimes ∧
    (finishTrial s o now).medianRT = s.medianRT := by
  obtain ⟨ty, pts, ort, inc, ts, th⟩ := o
  simp only at h1
  subst h1
  simp only [finishTrial, checkForPhaseOrLevelEnd]
  cases ort <;> cases ts <;>
    simp only [ensurePhaseTarget] <;>
    split_ifs <;>
    simp [startPhaseBreak_reactionTimes_l2s, startPhaseBreak_medianRT_l2s, endLevel, startNewTrial]

theorem finishTrial_data_of_timestamp_l2s (s : State) (o : Outcome) (now t thv : ℚ)
    (h1 : o.timestamp = some t) (h2 : o.thresholdUsed = some thv) :
    (finishTrial s o now).data = s.data ++
      [{ phase := s.phaseIndex + 1
         trialType := o.type
         time := t
         trial := s.trials
         rt := if o.type = TrialType.early ∨ o.type = TrialType.timeout then none else o.rt
         error := if o.type = TrialType.early ∨ o.type = TrialType.timeout then 1 else 0
         threshold := thv
         score := max (s.score + o.points) s.phaseFloorScore
         scoreChange := o.points }] := by
  obtain ⟨ty, pts, ort, inc, ts, th⟩ := o
  simp only at h1 h2
  subst h1
  subst h2
  simp only [finishTrial, checkForPhaseOrLevelEnd]
  cases inc <;> cases ort <;>
    simp only [ensurePhaseTarget] <;>
    split_ifs <;>
    simp [startPhaseBreak_data_l2s, endLevel, startNewTrial]

theorem ensure_fst_phaseIndex (s : State) :
    (ensurePhaseTarget s).1.phaseIndex = s.phaseIndex := by
  simp only [ensurePhaseTarget]
  split_ifs <;> rfl

theorem ensure_fst_score (s : State) :
    (ensurePhaseTarget s).1.score = s.score := by
  simp only [ensurePhaseTarget]
  split_ifs <;> rfl

theorem ensure_fst_phaseFloorScore (s : State) :
    (ensurePhaseTarget s).1.phaseFloorScore = s.phaseFloorScore := by
  simp only [ensurePhaseTarget]
  split_ifs <;> rfl

theorem ensure_fst_gameState (s : State) :
    (ensurePhaseTarget s).1.gameState = s.gameState := by
  simp only [ensurePhaseTarget]
  split_ifs <;> rfl

theorem ensure_snd (s : State) :
    (ensurePhaseTarget s).2 =
      (if s.phaseRequiredScores.getD s.phaseIndex 0 ≤ 0
       then adaptivePhaseTarget params.trialsNumber params.minTrialsPerPhase params.minScore
         (s.trials : ℚ) (s.phaseIndex : ℚ)
       else s.phaseRequiredScores.getD s.phaseIndex 0) := by
  simp only [ensurePhaseTarget, computePhaseTarget]
  split_ifs <;> rfl

theorem check_phaseIndex (s : State) (now : ℚ) :
    (checkForPhaseOrLevelEnd s now).phaseIndex = s.phaseIndex ∨
    ((checkForPhaseOrLevelEnd s now).phaseIndex = s.phaseIndex + 1 ∧ s.phaseIndex < 2) := by
  simp only [checkForPhaseOrLevelEnd]
  split_ifs with hcond hlt
  · right
    rw [ensure_fst_phaseIndex] at hlt
    refine ⟨?_, hlt⟩
    rw [startPhaseBreak_phaseIndex_l2s, ensure_fst_phaseIndex]
    omega
  · left
    show (ensurePhaseTarget s).1.phaseIndex = s.phaseIndex
    exact ensure_fst_phaseIndex s
  · left
    show (ensurePhaseTarget s).1.phaseIndex = s.phaseIndex
    exact ensure_fst_phaseIndex s

theorem check_trigger (s : State) (now : ℚ) :
    ((checkForPhaseOrLevelEnd s now).phaseIndex = s.phaseIndex + 1 ↔
      (s.phaseFloorScore +
          (if s.phaseRequiredScores.getD s.phaseIndex 0 ≤ 0
           then adaptivePhaseTarget params.trialsNumber params.minTrialsPerPhase
             params.minScore (s.trials : ℚ) (s.phaseIndex : ℚ)
           else s.phaseRequiredScores.getD s.phaseIndex 0) ≤
        s.score + epsilon ∧ s.phaseIndex < 2)) ∧
    ((checkForPhaseOrLevelEnd s now).gameState = GState.done ↔
      ((s.phaseFloorScore +
          (if s.phaseRequiredScores.getD s.phaseIndex 0 ≤ 0
           then adaptivePhaseTarget params.trialsNumber params.minTrialsPerPhase
             params.minScore (s.trials : ℚ) (s.phaseIndex : ℚ)
           else s.phaseRequiredScores.getD s.phaseIndex 0) ≤
        s.score + epsilon ∧ ¬(s.phaseIndex < 2)) ∨ s.gameState = GState.done)) := by
  simp only [checkForPhaseOrLevelEnd]
  rw [ensure_fst_phaseFloorScore, ensure_fst_score, ensure_fst_phaseIndex, ensure_snd]
  generalize (if s.phaseRequiredScores.getD s.phaseIndex 0 ≤ 0
    then adaptivePhaseTarget params.trialsNumber params.minTrialsPerPhase params.minScore
      (s.trials : ℚ) (s.phaseIndex : ℚ)
    else s.phaseRequiredScores.getD s.phaseIndex 0) = T
  split_ifs with hcond hlt
  · constructor
    · rw [startPhaseBreak_phaseIndex_l2s, ensure_fst_phaseIndex]
      constructor
      · intro _
        exact ⟨hcond, hlt⟩
      · intro _
        omega
    · rw [(startPhaseBreak_timers_l2s _ now).2.2.2.2.2, ensure_fst_gameState]
      simp [hcond, hlt]
  · constructor
    · have h1 : (endLevel (ensurePhaseTarget s).1).phaseIndex = s.phaseIndex :=
        ensure_fst_phaseIndex s
      rw [h1]
      simp only [hlt, and_false, iff_false]
      omega
    · have h2 : (endLevel (ensurePhaseTarget s).1).gameState = GState.done := rfl
      rw [h2]
      simp [hcond, hlt]
  · constructor
    · have h1 : (startNewTrial (ensurePhaseTarget s).1).phaseIndex = s.phaseIndex :=
        ensure_fst_phaseIndex s
      rw [h1]
      simp only [hcond, false_and, iff_false]
      omega
    · have h2 : (startNewTrial (ensurePhaseTarget s).1).gameState = s.gameState :=
        ensure_fst_gameState s
      rw [h2]
      simp [hcond]

theorem finishTrial_eq_check (s : State) (o : Outcome) (now : ℚ) :
    ∃ s3 : State, finishTrial s o now = checkForPhaseOrLevelEnd s3 now ∧
      s3.score = max (s.score + o.points) s.phaseFloorScore ∧
      s3.phaseFloorScore = s.phaseFloorScore ∧
      s3.phaseIndex = s.phaseIndex ∧
      s3.trials = s.trials ∧
      s3.phaseRequiredScores = s.phaseRequiredScores ∧
      s3.gameState = s.gameState := by
  obtain ⟨ty, pts, ort, inc, ts, th⟩ := o
  cases inc <;> cases ort <;> cases ts <;>
    simp only [finishTrial] <;>
    exact ⟨_, rfl, rfl, rfl, rfl, rfl, rfl, rfl⟩

theorem finishTrial_phaseIndex (s : State) (o : Outcome) (now : ℚ) :
    (finishTrial s o now).phaseIndex = s.phaseIndex ∨
    ((finishTrial s o now).phaseIndex = s.phaseIndex + 1 ∧ s.phaseIndex < 2) := by
  obtain ⟨s3, heq, _, _, hidx, _, _, _⟩ := finishTrial_eq_check s o now
  rw [heq, ← hidx]
  exact check_phaseIndex s3 now

theorem finishTrial_trigger (s : State) (o : Outcome) (now : ℚ) :
    ((finishTrial s o now).phaseIndex = s.phaseIndex + 1 ↔
      (s.phaseFloorScore +
          (if s.phaseRequiredScores.getD s.phaseIndex 0 ≤ 0
           then adaptivePhaseTarget params.trialsNumber params.minTrialsPerPhase
             params.minScore (s.trials : ℚ) (s.phaseIndex : ℚ)
           else s.phaseRequiredScores.getD s.phaseIndex 0) ≤
        max (s.score + o.points) s.phaseFloorScore + epsilon ∧ s.phaseIndex < 2)) ∧
    ((finishTrial s o now).gameState = GState.done ↔
      ((s.phaseFloorScore +
          (if s.phaseRequiredScores.getD s.phaseIndex 0 ≤ 0
           then adaptivePhaseTarget params.trialsNumber params.minTrialsPerPhase
             params.minScore (s.trials : ℚ) (s.phaseIndex : ℚ)
           else s.phaseRequiredScores.getD s.phaseIndex 0) ≤
        max (s.score + o.points) s.phaseFloorScore + epsilon ∧ ¬(s.phaseIndex < 2)) ∨
        s.gameState = GState.done)) := by
  obtain ⟨s3, heq, hsc, hfl, hidx, htr, hreq, hgs⟩ := finishTrial_eq_check s o now
  have h := check_trigger s3 now
  rw [hsc, hfl, hidx, htr, hreq, hgs] at h
  rw [heq]
  exact h

theorem timeoutCallback_phaseIndex (s : State) (now : ℚ) :
    (timeoutCallback s now).phaseIndex = s.phaseIndex ∨
    ((timeoutCallback s now).phaseIndex = s.phaseIndex + 1 ∧ s.phaseIndex < 2) := by
  simp only [timeoutCallback]
  split_ifs <;>
    first
      | (left; rfl)
      | (exact finishTrial_phaseIndex _ _ _)

theorem handleKeyDown_phaseIndex (s : State) (key : Key) (now : ℚ) :
    (handleKeyDown s key now).phaseIndex = s.phaseIndex ∨
    ((handleKeyDown s key now).phaseIndex = s.phaseIndex + 1 ∧ s.phaseIndex < 2) := by
  simp only [handleKeyDown]
  split_ifs <;>
    first
      | (left; rfl)
      | (left
         simp only [resumeFromBreak]
         split_ifs <;> rfl)
      | (exact finishTrial_phaseIndex _ _ _)

theorem step_phaseIndex (s : State) (e : Event) :
    (step s e).phaseIndex = s.phaseIndex ∨
    ((step s e).phaseIndex = s.phaseIndex + 1 ∧ s.phaseIndex < 2) := by
  cases e with
  | delayFired id now =>
    left
    show (if s.pendingStimulusTimeoutId = some id
      then delayCallback s now else s).phaseIndex = s.phaseIndex
    split_ifs <;> rfl
  | timeoutFired id now =>
    by_cases h : s.currentTrialTimeoutId = some id
    · have hstep : step s (Event.timeoutFired id now) = timeoutCallback s now := if_pos h
      rw [hstep]
      exact timeoutCallback_phaseIndex _ _
    · have hstep : step s (Event.timeoutFired id now) = s := if_neg h
      rw [hstep]
      exact Or.inl rfl
  | keyDown key now => exact handleKeyDown_phaseIndex s key now
  | frame now =>
    left
    show (frameUpdate s now).phaseIndex = s.phaseIndex
    simp only [frameUpdate, updateBreak]
    split_ifs <;> rfl

theorem step_phaseIndex_le (s : State) (e : Event) :
    s.phaseIndex ≤ (step s e).phaseIndex := by
  rcases step_phaseIndex s e with h | ⟨h, _⟩ <;> omega

theorem run_phaseIndex_le (s : State) (l : List Event) :
    s.phaseIndex ≤ (run s l).phaseIndex := by
  induction l generalizing s with
  | nil => exact le_refl _
  | cons e l ih =>
    calc s.phaseIndex ≤ (step s e).phaseIndex := step_phaseIndex_le s e
    _ ≤ (run (step s e) l).phaseIndex := ih (step s e)

theorem run_phaseIndex_le_two (s : State) (l : List Event) (h : s.phaseIndex ≤ 2) :
    (run s l).phaseIndex ≤ 2 := by
  induction l generalizing s with
  | nil => exact h
  | cons e l ih =>
    refine ih (step s e) ?_
    rcases step_phaseIndex s e with h1 | ⟨h1, h2⟩ <;> omega

theorem timeoutCallback_spec_l2s (s : State) (now : ℚ)
    (hplay : s.gameState = GState.playing) (hvis : s.stimulus.visible = true) :
    timeoutCallback s now =
      finishTrial
        { s with currentTrialTimeoutId := none
                 stimulus := { visible := false, exiting := true, exitStartTime := now } }
        { type := TrialType.timeout, points := 0, rt := none, includeInMedian := false
          timestamp := some now, thresholdUsed := none } now ∧
    (timeoutCallback s now).reactionTimes = s.reactionTimes ∧
    (timeoutCallback s now).medianRT = s.medianRT ∧
    (timeoutCallback s now).data = s.data ++
      [{ phase := s.phaseIndex + 1
         trialType := TrialType.timeout
         time := now
         trial := s.trials
         rt := none
         error := 1
         threshold := getEffectiveThreshold s
         score := max s.score s.phaseFloorScore
         scoreChange := 0 }] := by
  have heq : timeoutCallback s now =
      finishTrial
        { s with currentTrialTimeoutId := none
                 stimulus := { visible := false, exiting := true, exitStartTime := now } }
        { type := TrialType.timeout, points := 0, rt := none, includeInMedian := false
          timestamp := some now, thresholdUsed := none } now := by
    simp only [timeoutCallback, hplay, hvis]
    simp
  refine ⟨heq, ?_, ?_, ?_⟩
  · rw [heq]
    exact (finishTrial_median_of_not_include_l2s _ _ _ rfl).1
  · rw [heq]
    exact (finishTrial_median_of_not_include_l2s _ _ _ rfl).2
  · rw [heq]
    simp only [finishTrial, checkForPhaseOrLevelEnd]
    simp only [ensurePhaseTarget]
    split_ifs <;>
      simp_all [startPhaseBreak_data_l2s, endLevel, startNewTrial, getEffectiveThreshold]

end Level2S

namespace Level2D

theorem startPhaseBreak_score_eq_floor_l2d (s : State) (now : ℚ) :
    (startPhaseBreak s now).score = (startPhaseBreak s now).phaseFloorScore := by
  simp only [startPhaseBreak]
  split_ifs with h1 h2
  · rfl
  · rfl
  · simp only at h1 h2
    omega

theorem startPhaseBreak_reactionTimes_l2d (s : State) (now : ℚ) :
    (startPhaseBreak s now).reactionTimes = s.reactionTimes := by
  simp only [startPhaseBreak]
  split_ifs <;> rfl

theorem startPhaseBreak_medianRT_l2d (s : State) (now : ℚ) :
    (startPhaseBreak s now).medianRT = s.medianRT := by
  simp only [startPhaseBreak]
  split_ifs <;> rfl

theorem startPhaseBreak_data_l2d (s : State) (now : ℚ) :
    (startPhaseBreak s now).data = s.data := by
  simp only [startPhaseBreak]
  split_ifs <;> rfl

theorem finishTrial_floor_le_score_l2d (s : State) (o : Outcome) (now : ℚ) :
    (finishTrial s o now).phaseFloorScore ≤ (finishTrial s o now).score := by
  obtain ⟨ty, pts, ort, inc, ts, th, rk, co⟩ := o
  simp only [finishTrial]
  rcases co with _ | (_ | _) <;> cases inc <;> cases ort <;> cases ts <;>
    simp only [ne_eq, Option.some.injEq, not_false_eq_true, not_true_eq_false,
      if_true, if_false, reduceCtorEq, reduceIte] <;>
    split_ifs <;>
    first
      | (rw [startPhaseBreak_score_eq_floor_l2d])
      | simp [endLevel, startNewTrial, le_max_right]

theorem finishTrial_median_of_include_l2d (s : State) (o : Outcome) (now r : ℚ)
    (h1 : o.includeInMedian = true) (h2 : o.rt = some r) (h3 : o.correct ≠ some false) :
    (finishTrial s o now).reactionTimes = s.reactionTimes ++ [r] ∧
    (finishTrial s o now).medianRT = computeMedian (s.reactionTimes ++ [r]) s.medianRT := by
  obtain ⟨ty, pts, ort, inc, ts, th, rk, co⟩ := o
  simp only at h1 h2 h3
  subst h1
  subst h2
  simp only [finishTrial, if_pos h3]
  cases ts <;>
    split_ifs <;>
    simp [startPhaseBreak_reactionTimes_l2d, startPhaseBreak_medianRT_l2d, endLevel, startNewTrial]

theorem finishTrial_median_of_not_include_l2d (s : State) (o : Outcome) (now : ℚ)
    (h1 : o.includeInMedian = false) :
    (finishTrial s o now).reactionTimes = s.reactionTimes ∧
    (finishTrial s o now).medianRT = s.medianRT := by
  obtain ⟨ty, pts, ort, inc, ts, th, rk, co⟩ := o
  simp only at h1
  subst h1
  simp only [finishTrial]
  cases ort <;> cases ts <;>
    split_ifs <;>
    simp [startPhaseBreak_reactionTimes_l2d, startPhaseBreak_medianRT_l2d, endLevel, startNewTrial]

theorem finishTrial_median_of_incorrect (s : State) (o : Outcome) (now : ℚ)
    (h1 : o.correct = some false) :
    (finishTrial s o now).reactionTimes = s.reactionTimes ∧
    (finishTrial s o now).medianRT = s.medianRT := by
  obtain ⟨ty, pts, ort, inc, ts, th, rk, co⟩ := o
  simp only at h1
  subst h1
  simp only [finishTrial, ne_eq, Option.some.injEq, not_true_eq_false, if_false, reduceIte]
  cases inc <;> cases ort <;> cases ts <;>
    split_ifs <;>
    simp [startPhaseBreak_reactionTimes_l2d, startPhaseBreak_medianRT_l2d, endLevel, startNewTrial]

theorem finishTrial_data_of_timestamp_l2d (s : State) (o : Outcome) (now t thv : ℚ)
    (h1 : o.timestamp = some t) (h2 : o.thresholdUsed = some thv) :
    (finishTrial s o now).data = s.data ++
      [{ phase := s.phaseIndex + 1
         trialType := o.type
         time := t
         trial := s.trials
         rt := if o.type = TrialType.early ∨ o.type = TrialType.timeout ∨
               o.type = TrialType.error then none else o.rt
         error := if o.type = TrialType.early ∨ o.type = TrialType.timeout ∨
                  o.type = TrialType.error then 1 else 0
         threshold := thv
         score := max (s.score + o.points) s.phaseFloorScore
         scoreChange := o.points
         responseKey := o.responseKey
         correct := o.correct }] := by
  obtain ⟨ty, pts, ort, inc, ts, th, rk, co⟩ := o
  simp only at h1 h2
  subst h1
  subst h2
  simp only [finishTrial]
  cases inc <;> cases ort <;>
    split_ifs <;>
    simp [startPhaseBreak_data_l2d, endLevel, startNewTrial]

end Level2D

/-! ## Claim theorems -/

/-- C1 (confirmed): for every finite sequence of admitted reaction
times fed in presentation order, after each admission the state's
`medianRT` equals the textbook median of the admitted-so-far multiset
(sort ascending; middle element for odd length, mean of the two middle
elements for even length), in both the level-1 and the simplified
level-2 implementations; in particular the running median over
`[500]` is 500, over `[500, 100]` is 300, and over `[500, 100, 700]`
is 500. -/
theorem claim_C1_median_correctness :
    (∀ (s : Level1.State) (o : Level1.Outcome) (now r : ℚ),
      o.includeInMedian = true → o.rt = some r →
      (Level1.finishTrial s o now).reactionTimes = s.reactionTimes ++ [r] ∧
      (Level1.finishTrial s o now).medianRT = textbookMedian (s.reactionTimes ++ [r])) ∧
    (∀ (s : Level2S.State) (o : Level2S.Outcome) (now r : ℚ),
      o.includeInMedian = true → o.rt = some r →
      (Level2S.finishTrial s o now).reactionTimes = s.reactionTimes ++ [r] ∧
      (Level2S.finishTrial s o now).medianRT = textbookMedian (s.reactionTimes ++ [r])) ∧
    textbookMedian [500] = 500 ∧
    textbookMedian [500, 100] = 300 ∧
    textbookMedian [500, 100, 700] = 500 := by
  refine ⟨?_, ?_,
    by norm_num [textbookMedian, List.insertionSort, List.orderedInsert],
    by norm_num [textbookMedian, List.insertionSort, List.orderedInsert],
    by norm_num [textbookMedian, List.insertionSort, List.orderedInsert]⟩
  · intro s o now r h1 h2
    obtain ⟨ha, hb⟩ := Level1.finishTrial_median_of_include_l1 s o now r h1 h2
    exact ⟨ha, by
      rw [hb, computeMedian_eq_textbookMedian _ _ (by simp)]⟩
  · intro s o now r h1 h2
    obtain ⟨ha, hb⟩ := Level2S.finishTrial_median_of_include_l2s s o now r h1 h2
    exact ⟨ha, by
      rw [hb, computeMedian_eq_textbookMedian _ _ (by simp)]⟩

/-- Witness for C1: admitting the single reaction time 500 into a fresh
level-1 session yields a running median of 500. -/
theorem claim_C1_median_correctness_witness :
    (Level1.finishTrial Level1.initialState
      { type := TrialType.fast, points := 190, rt := some 500, includeInMedian := true
        timestamp := some 0, thresholdUsed := some 1000 } 0).medianRT = 500 := by
  have h := (claim_C1_median_correctness.1 Level1.initialState
    { type := TrialType.fast, points := 190, rt := some 500, includeInMedian := true
      timestamp := some 0, thresholdUsed := some 1000 } 0 500 rfl rfl).2
  rw [h]
  norm_num [textbookMedian, List.insertionSort, List.orderedInsert]

/-- C3 (confirmed): after every `finishTrial` call — in level 1, the
simplified level 2, and the directional level 2 — the updated score is
at least the current phase floor: the points are added and the result
is immediately clamped up to `phaseFloorScore`, and a phase break
raises the score exactly to the new floor; the initial states also
satisfy the invariant, so the score never drops below the floor at any
observable point. -/
theorem claim_C3_score_floor_invariant :
    (∀ (s : Level1.State) (o : Level1.Outcome) (now : ℚ),
      (Level1.finishTrial s o now).phaseFloorScore ≤ (Level1.finishTrial s o now).score) ∧
    (∀ (s : Level2S.State) (o : Level2S.Outcome) (now : ℚ),
      (Level2S.finishTrial s o now).phaseFloorScore ≤ (Level2S.finishTrial s o now).score) ∧
    (∀ (s : Level2D.State) (o : Level2D.Outcome) (now : ℚ),
      (Level2D.finishTrial s o now).phaseFloorScore ≤ (Level2D.finishTrial s o now).score) ∧
    Level1.initialState.phaseFloorScore ≤ Level1.initialState.score ∧
    Level2S.initialState.phaseFloorScore ≤ Level2S.initialState.score ∧
    Level2D.initialState.phaseFloorScore ≤ Level2D.initialState.score :=
  ⟨Level1.finishTrial_floor_le_score_l1, Level2S.finishTrial_floor_le_score_l2s,
    Level2D.finishTrial_floor_le_score_l2d, le_refl 0, le_refl 0, le_refl 0⟩

/-- C9 (confirmed): in both level 1 and the simplified level 2, a
keypress while no stimulus is visible or exiting finishes the trial as
an `early` outcome worth `-minScore` points (logged with score change
`-minScore`), cancels any armed delay or timeout timer (the previously
scheduled ids are no longer pending afterwards), and leaves both
`reactionTimes` and `medianRT` unchanged. -/
theorem claim_C9_early_press :
    (∀ (s : Level1.State) (now : ℚ),
      s.gameState = GState.playing → s.inBreak = false →
      s.stimulus.visible = false → s.stimulus.exiting = false →
      (Level1.handleKeyDown s Key.arrowDown now =
        Level1.finishTrial
          { s with pendingStimulusTimeoutId := none, currentTrialTimeoutId := none }
          { type := TrialType.early, points := -Level1.params.minScore, rt := none
            includeInMedian := false, timestamp := some now
            thresholdUsed := some (max Level1.params.minRT (Level1.getEffectiveThreshold s)) }
          now) ∧
      (Level1.handleKeyDown s Key.arrowDown now).reactionTimes = s.reactionTimes ∧
      (Level1.handleKeyDown s Key.arrowDown now).medianRT = s.medianRT ∧
      (Level1.handleKeyDown s Key.arrowDown now).data = s.data ++
        [{ phase := s.phaseIndex + 1, trialType := TrialType.early, time := now
           trial := s.trials, rt := none
           threshold := max Level1.params.minRT (Level1.getEffectiveThreshold s)
           score := max (s.score + -Level1.params.minScore) s.phaseFloorScore
           scoreChange := -Level1.params.minScore }] ∧
      (Level1.handleKeyDown s Key.arrowDown now).currentTrialTimeoutId = none ∧
      (∀ id, id < s.nextTimerId →
        (Level1.handleKeyDown s Key.arrowDown now).pendingStimulusTimeoutId ≠ some id)) ∧
    (∀ (s : Level2S.State) (now : ℚ),
      s.gameState = GState.playing → s.inBreak = false →
      s.stimulus.visible = false → s.stimulus.exiting = false →
      (Level2S.handleKeyDown s Key.arrowDown now =
        Level2S.finishTrial
          { s with pendingStimulusTimeoutId := none, currentTrialTimeoutId := none }
          { type := TrialType.early, points := -Level2S.params.minScore, rt := none
            includeInMedian := false, timestamp := some now
            thresholdUsed := some (Level2S.getEffectiveThreshold s) } now) ∧
      (Level2S.handleKeyDown s Key.arrowDown now).reactionTimes = s.reactionTimes ∧
      (Level2S.handleKeyDown s Key.arrowDown now).medianRT = s.medianRT ∧
      (Level2S.handleKeyDown s Key.arrowDown now).data = s.data ++
        [{ phase := s.phaseIndex + 1, trialType := TrialType.early, time := now
           trial := s.trials, rt := none, error := 1
           threshold := Level2S.getEffectiveThreshold s
           score := max (s.score + -Level2S.params.minScore) s.phaseFloorScore
           scoreChange := -Level2S.params.minScore }] ∧
      (Level2S.handleKeyDown s Key.arrowDown now).currentTrialTimeoutId = none ∧
      (∀ id, id < s.nextTimerId →
        (Level2S.handleKeyDown s Key.arrowDown now).pendingStimulusTimeoutId ≠ some id)) := by
  constructor
  · intro s now hplay hbreak hvis hexit
    have heq : Level1.handleKeyDown s Key.arrowDown now =
        Level1.finishTrial
          { s with pendingStimulusTimeoutId := none, currentTrialTimeoutId := none }
          { type := TrialType.early, points := -Level1.params.minScore, rt := none
            includeInMedian := false, timestamp := some now
            thresholdUsed := some (max Level1.params.minRT (Level1.getEffectiveThreshold s)) }
          now := by
      simp only [Level1.handleKeyDown, hplay, hbreak, hvis, hexit]
      simp [Level1.getEffectiveThreshold]
    refine ⟨heq, ?_, ?_, ?_, ?_, ?_⟩
    · rw [heq]
      exact (Level1.finishTrial_median_of_not_include_l1 _ _ _ rfl).1
    · rw [heq]
      exact (Level1.finishTrial_median_of_not_include_l1 _ _ _ rfl).2
    · rw [heq]
      exact Level1.finishTrial_data_of_timestamp_l1 _ _ _ _ _ rfl rfl
    · rw [heq]
      rcases Level1.finishTrial_timers_l1
          { s with pendingStimulusTimeoutId := none, currentTrialTimeoutId := none }
          { type := TrialType.early, points := -Level1.params.minScore, rt := none
            includeInMedian := false, timestamp := some now
            thresholdUsed := some (max Level1.params.minRT (Level1.getEffectiveThreshold s)) }
          now with h | h | h <;> exact h.2.1
    · intro id hid
      rw [heq]
      rcases Level1.finishTrial_timers_l1
          { s with pendingStimulusTimeoutId := none, currentTrialTimeoutId := none }
          { type := TrialType.early, points := -Level1.params.minScore, rt := none
            includeInMedian := false, timestamp := some now
            thresholdUsed := some (max Level1.params.minRT (Level1.getEffectiveThreshold s)) }
          now with h | h | h <;>
        rw [h.1] <;> simp <;> omega
  · intro s now hplay hbreak hvis hexit
    have heq : Level2S.handleKeyDown s Key.arrowDown now =
        Level2S.finishTrial
          { s with pendingStimulusTimeoutId := none, currentTrialTimeoutId := none }
          { type := TrialType.early, points := -Level2S.params.minScore, rt := none
            includeInMedian := false, timestamp := some now
            thresholdUsed := some (Level2S.getEffectiveThreshold s) } now := by
      simp only [Level2S.handleKeyDown, hplay, hbreak, hvis, hexit]
      simp [Level2S.getEffectiveThreshold]
    refine ⟨heq, ?_, ?_, ?_, ?_, ?_⟩
    · rw [heq]
      exact (Level2S.finishTrial_median_of_not_include_l2s _ _ _ rfl).1
    · rw [heq]
      exact (Level2S.finishTrial_median_of_not_include_l2s _ _ _ rfl).2
    · rw [heq]
      have h := Level2S.finishTrial_data_of_timestamp_l2s
        { s with pendingStimulusTimeoutId := none, currentTrialTimeoutId := none }
        { type := TrialType.early, points := -Level2S.params.minScore, rt := none
          includeInMedian := false, timestamp := some now
          thresholdUsed := some (Level2S.getEffectiveThreshold s) } now now
        (Level2S.getEffectiveThreshold s) rfl rfl
      rw [h]
      simp
    · rw [heq]
      rcases Level2S.finishTrial_timers_l2s
          { s with pendingStimulusTimeoutId := none, currentTrialTimeoutId := none }
          { type := TrialType.early, points := -Level2S.params.minScore, rt := none
            includeInMedian := false, timestamp := some now
            thresholdUsed := some (Level2S.getEffectiveThreshold s) }
          now with h | h | h <;> exact h.2.1
    · intro id hid
      rw [heq]
      rcases Level2S.finishTrial_timers_l2s
          { s with pendingStimulusTimeoutId := none, currentTrialTimeoutId := none }
          { type := TrialType.early, points := -Level2S.params.minScore, rt := none
            includeInMedian := false, timestamp := some now
            thresholdUsed := some (Level2S.getEffectiveThreshold s) }
          now with h | h | h <;>
        rw [h.1] <;> simp <;> omega

/-- Witness for C9: an early press at time 500 in the freshly started
level-1 session leaves the reaction-time list empty. -/
theorem claim_C9_early_press_witness :
    (Level1.handleKeyDown Level1.initialState Key.arrowDown 500).reactionTimes = [] :=
  (claim_C9_early_press.1 Level1.initialState 500 rfl rfl rfl rfl).2.1

/-- C10 (confirmed): in level 1, a keypress while the stimulus IS
visible but with reaction time below `minRT` (100 ms) is nevertheless
classified as an `early` outcome worth `-minScore` points, carries no
timestamp (hence appends no log record), and is excluded from the
median — an anticipation cutoff at the public interface beyond the
spec's decision procedure. -/
theorem claim_C10_minRT_anticipation_cutoff :
    ∀ (s : Level1.State) (now : ℚ),
      s.gameState = GState.playing → s.inBreak = false →
      s.stimulus.visible = true → s.stimulus.exiting = false →
      now - s.startTime < Level1.params.minRT →
      (Level1.handleKeyDown s Key.arrowDown now =
        Level1.finishTrial
          { s with currentTrialTimeoutId := none
                   stimulus := { visible := false, exiting := true, exitStartTime := now } }
          { type := TrialType.early, points := -Level1.params.minScore, rt := none
            includeInMedian := false, timestamp := none, thresholdUsed := none } now) ∧
      (Level1.handleKeyDown s Key.arrowDown now).reactionTimes = s.reactionTimes ∧
      (Level1.handleKeyDown s Key.arrowDown now).medianRT = s.medianRT ∧
      (Level1.handleKeyDown s Key.arrowDown now).data = s.data := by
  intro s now hplay hbreak hvis hexit hrt
  have heq : Level1.handleKeyDown s Key.arrowDown now =
      Level1.finishTrial
        { s with currentTrialTimeoutId := none
                 stimulus := { visible := false, exiting := true, exitStartTime := now } }
        { type := TrialType.early, points := -Level1.params.minScore, rt := none
          includeInMedian := false, timestamp := none, thresholdUsed := none } now := by
    simp only [Level1.handleKeyDown, hplay, hbreak, hvis, hexit]
    simp [hrt]
  refine ⟨heq, ?_, ?_, ?_⟩
  · rw [heq]
    exact (Level1.finishTrial_median_of_not_include_l1 _ _ _ rfl).1
  · rw [heq]
    exact (Level1.finishTrial_median_of_not_include_l1 _ _ _ rfl).2
  · rw [heq]
    exact Level1.finishTrial_data_of_no_timestamp _ _ _ rfl

/-- C2 counterexample: in level 1 (`part_007`), a fast response at
`rt = 200` ms against the initial `medianRT = 1000` (per-trial
`maxRT = 2000`, `minScore = 100`, `maxScore = 200`) is logged with
`3700/19 ≈ 194.74` points, not the claimed
`minScore + (1 − 200/2000) × (maxScore − minScore) = 190`: level 1
anchors its normalization at `minRT = 100`. -/
theorem claim_C2_counterexample :
    (Level1.run Level1.initialState
        [Level1.Event.delayFired 0 1000, Level1.Event.keyDown Key.arrowDown 1200]).data =
      [{ phase := 1, trialType := TrialType.fast, time := 1200, trial := 1
         rt := some 200, threshold := 4000/3, score := 3700/19, scoreChange := 3700/19 }] ∧
    (3700/19 : ℚ) ≠ 190 := by
  constructor
  · have hc : adaptivePhaseTarget 12 4 100 0 0 = 200 := by
      simp only [adaptivePhaseTarget]
      norm_num
    have h0 : Level1.initialState =
        { gameState := GState.playing
          score := 0
          trials := 0
          reactionTimes := []
          data := []
          stimulus := { visible := false, exiting := false, exitStartTime := 0 }
          startTime := 0
          pendingStimulusTimeoutId := some 0
          currentTrialTimeoutId := none
          medianRT := 1000
          maxRT := 2000
          phaseIndex := 0
          inBreak := false
          breakState := BreakState.idle
          breakStartTime := 0
          showBreakText := false
          phaseRequiredScores := [200, 0, 0]
          phaseFloorScore := 0
          nextTimerId := 1 } := by
      simp only [Level1.initialState, Level1.startNewTrial, Level1.computePhaseTarget,
        Level1.params]
      norm_num [hc]
    have h1 : Level1.run Level1.initialState
        [Level1.Event.delayFired 0 1000, Level1.Event.keyDown Key.arrowDown 1200] =
        Level1.handleKeyDown
          { gameState := GState.playing
            score := 0
            trials := 1
            reactionTimes := []
            data := []
            stimulus := { visible := true, exiting := false, exitStartTime := 0 }
            startTime := 1000
            pendingStimulusTimeoutId := none
            currentTrialTimeoutId := some 1
            medianRT := 1000
            maxRT := 2000
            phaseIndex := 0
            inBreak := false
            breakState := BreakState.idle
            breakStartTime := 0
            showBreakText := false
            phaseRequiredScores := [200, 0, 0]
            phaseFloorScore := 0
            nextTimerId := 2 } Key.arrowDown 1200 := by
      simp only [Level1.run, List.foldl, h0, Level1.step, Level1.delayCallback]
      norm_num
    rw [h1]
    simp only [Level1.handleKeyDown, Level1.params, Level1.getEffectiveThreshold]
    norm_num
    simp only [Level1.finishTrial, Level1.ensurePhaseTarget]
    norm_num [epsilon, Level1.startNewTrial]
    simp
  · norm_num

/-- C2 (corrected): a response with the stimulus visible and
`rt ≤ threshold` is classified Fast and always admitted to the median
in the cited implementations, but the normalized score differs between
them: the simplified level 2 uses
`nRT = 1 − min(rt, maxRT) / max(1, maxRT)` (which equals the claimed
`1 − min(rt, maxRT)/maxRT` whenever `maxRT ≥ 1`), so a response at
`rt = 200` with `medianRT = 1000` scores exactly 190 points; level 1
instead anchors the normalization at `minRT = 100`
(`nRT = 1 − (clamp(rt, minRT, maxRT) − minRT) / max(1, maxRT − minRT)`),
so the same response scores `3700/19 ≈ 194.74`. -/
theorem claim_C2_fast_classification :
    (∀ (s : Level2S.State) (now : ℚ),
      s.gameState = GState.playing → s.inBreak = false →
      s.stimulus.visible = true → s.stimulus.exiting = false →
      now - s.startTime ≤ Level2S.getEffectiveThreshold s →
      (Level2S.handleKeyDown s Key.arrowDown now =
        Level2S.finishTrial
          { s with currentTrialTimeoutId := none
                   stimulus := { visible := false, exiting := true, exitStartTime := now } }
          { type := TrialType.fast, points := Level2S.fastPoints s (now - s.startTime)
            rt := some (now - s.startTime), includeInMedian := true, timestamp := some now
            thresholdUsed := some (Level2S.getEffectiveThreshold s) } now) ∧
      (Level2S.handleKeyDown s Key.arrowDown now).reactionTimes =
        s.reactionTimes ++ [now - s.startTime] ∧
      (Level2S.handleKeyDown s Key.arrowDown now).data = s.data ++
        [{ phase := s.phaseIndex + 1, trialType := TrialType.fast, time := now
           trial := s.trials, rt := some (now - s.startTime), error := 0
           threshold := Level2S.getEffectiveThreshold s
           score := max (s.score + Level2S.fastPoints s (now - s.startTime)) s.phaseFloorScore
           scoreChange := Level2S.fastPoints s (now - s.startTime) }]) ∧
    (∀ (s : Level2S.State) (rt : ℚ), 1 ≤ s.maxRT →
      Level2S.fastPoints s rt = Level2S.params.minScore +
        (1 - min rt s.maxRT / s.maxRT) *
          (Level2S.params.maxScore - Level2S.params.minScore)) ∧
    (∀ (s : Level1.State) (now : ℚ),
      s.gameState = GState.playing → s.inBreak = false →
      s.stimulus.visible = true → s.stimulus.exiting = false →
      Level1.params.minRT ≤ now - s.startTime →
      now - s.startTime ≤ max Level1.params.minRT (Level1.getEffectiveThreshold s) →
      (Level1.handleKeyDown s Key.arrowDown now =
        Level1.finishTrial
          { s with currentTrialTimeoutId := none
                   stimulus := { visible := false, exiting := true, exitStartTime := now } }
          { type := TrialType.fast, points := Level1.fastPoints s (now - s.startTime)
            rt := some (now - s.startTime), includeInMedian := true, timestamp := some now
            thresholdUsed := some (max Level1.params.minRT (Level1.getEffectiveThreshold s)) }
          now) ∧
      (Level1.handleKeyDown s Key.arrowDown now).reactionTimes =
        s.reactionTimes ++ [now - s.startTime]) ∧
    Level2S.fastPoints (Level2S.delayCallback Level2S.initialState 1000) 200 = 190 ∧
    Level1.fastPoints (Level1.delayCallback Level1.initialState 1000) 200 = 3700/19 := by
  refine ⟨?_, ?_, ?_, ?_, ?_⟩
  · intro s now hplay hbreak hvis hexit hrt
    have heq : Level2S.handleKeyDown s Key.arrowDown now =
        Level2S.finishTrial
          { s with currentTrialTimeoutId := none
                   stimulus := { visible := false, exiting := true, exitStartTime := now } }
          { type := TrialType.fast, points := Level2S.fastPoints s (now - s.startTime)
            rt := some (now - s.startTime), includeInMedian := true, timestamp := some now
            thresholdUsed := some (Level2S.getEffectiveThreshold s) } now := by
      simp only [Level2S.handleKeyDown, hplay, hbreak, hvis, hexit]
      simp only [Level2S.getEffectiveThreshold] at hrt
      simp [Level2S.getEffectiveThreshold, Level2S.fastPoints, not_lt.mpr hrt]
    refine ⟨heq, ?_, ?_⟩
    · rw [heq]
      exact (Level2S.finishTrial_median_of_include_l2s _ _ _ _ rfl rfl).1
    · rw [heq]
      have h := Level2S.finishTrial_data_of_timestamp_l2s
        { s with currentTrialTimeoutId := none
                 stimulus := { visible := false, exiting := true, exitStartTime := now } }
        { type := TrialType.fast, points := Level2S.fastPoints s (now - s.startTime)
          rt := some (now - s.startTime), includeInMedian := true, timestamp := some now
          thresholdUsed := some (Level2S.getEffectiveThreshold s) } now now
        (Level2S.getEffectiveThreshold s) rfl rfl
      rw [h]
      simp
  · intro s rt h1
    have hne : s.maxRT ≠ 0 := by
      intro h
      rw [h] at h1
      norm_num at h1
    simp only [Level2S.fastPoints, if_pos hne, max_eq_right h1]
  · intro s now hplay hbreak hvis hexit hmin hrt
    have hnotlt : ¬(now - s.startTime < Level1.params.minRT) := not_lt.mpr hmin
    have heq : Level1.handleKeyDown s Key.arrowDown now =
        Level1.finishTrial
          { s with currentTrialTimeoutId := none
                   stimulus := { visible := false, exiting := true, exitStartTime := now } }
          { type := TrialType.fast, points := Level1.fastPoints s (now - s.startTime)
            rt := some (now - s.startTime), includeInMedian := true, timestamp := some now
            thresholdUsed := some (max Level1.params.minRT (Level1.getEffectiveThreshold s)) }
          now := by
      simp only [Level1.handleKeyDown, hplay, hbreak, hvis, hexit]
      simp only [Level1.getEffectiveThreshold] at hrt
      simp [Level1.getEffectiveThreshold, Level1.fastPoints, hnotlt, not_lt.mpr hrt]
    refine ⟨heq, ?_⟩
    rw [heq]
    exact (Level1.finishTrial_median_of_include_l1 _ _ _ _ rfl rfl).1
  · norm_num [Level2S.fastPoints, Level2S.delayCallback, Level2S.initialState,
      Level2S.startNewTrial, Level2S.params]
  · norm_num [Level1.fastPoints, Level1.delayCallback, Level1.initialState,
      Level1.startNewTrial, Level1.params]

/-- C7 (confirmed): a response with the stimulus visible and
`rt > threshold` is classified Slow — with 0 points in the baseline
levels (level 1 and the simplified level 2) and `+minScore/2` for a
correct-but-slow response in the directional level 2 — and its RT is
admitted to the median if and only if `rt ≤ maxRT`, the per-trial
maximum snapshotted at stimulus onset (with the source's falsy-guard
fallback). -/
theorem claim_C7_slow_classification :
    (∀ (s : Level2S.State) (now : ℚ),
      s.gameState = GState.playing → s.inBreak = false →
      s.stimulus.visible = true → s.stimulus.exiting = false →
      Level2S.getEffectiveThreshold s < now - s.startTime →
      (Level2S.handleKeyDown s Key.arrowDown now =
        Level2S.finishTrial
          { s with currentTrialTimeoutId := none
                   stimulus := { visible := false, exiting := true, exitStartTime := now } }
          { type := TrialType.slow, points := 0, rt := some (now - s.startTime)
            includeInMedian := decide (now - s.startTime ≤ Level2S.trialMaxRT s)
            timestamp := some now
            thresholdUsed := some (Level2S.getEffectiveThreshold s) } now) ∧
      (now - s.startTime ≤ Level2S.trialMaxRT s →
        (Level2S.handleKeyDown s Key.arrowDown now).reactionTimes =
          s.reactionTimes ++ [now - s.startTime]) ∧
      (¬(now - s.startTime ≤ Level2S.trialMaxRT s) →
        (Level2S.handleKeyDown s Key.arrowDown now).reactionTimes = s.reactionTimes ∧
        (Level2S.handleKeyDown s Key.arrowDown now).medianRT = s.medianRT)) ∧
    (∀ (s : Level1.State) (now : ℚ),
      s.gameState = GState.playing → s.inBreak = false →
      s.stimulus.visible = true → s.stimulus.exiting = false →
      Level1.params.minRT ≤ now - s.startTime →
      max Level1.params.minRT (Level1.getEffectiveThreshold s) < now - s.startTime →
      (Level1.handleKeyDown s Key.arrowDown now =
        Level1.finishTrial
          { s with currentTrialTimeoutId := none
                   stimulus := { visible := false, exiting := true, exitStartTime := now } }
          { type := TrialType.slow, points := 0, rt := some (now - s.startTime)
            includeInMedian := decide (now - s.startTime ≤ Level1.trialMaxRT s)
            timestamp := some now
            thresholdUsed := some (max Level1.params.minRT (Level1.getEffectiveThreshold s)) }
          now) ∧
      (now - s.startTime ≤ Level1.trialMaxRT s →
        (Level1.handleKeyDown s Key.arrowDown now).reactionTimes =
          s.reactionTimes ++ [now - s.startTime]) ∧
      (¬(now - s.startTime ≤ Level1.trialMaxRT s) →
        (Level1.handleKeyDown s Key.arrowDown now).reactionTimes = s.reactionTimes ∧
        (Level1.handleKeyDown s Key.arrowDown now).medianRT = s.medianRT)) ∧
    (∀ (s : Level2D.State) (key : Key) (now : ℚ),
      s.gameState = GState.playing → s.inBreak = false →
      s.stimulus.visible = true → s.stimulus.exiting = false →
      ((key = Key.arrowLeft ∧ s.stimulus.side = Level2D.Side.left) ∨
        (key = Key.arrowRight ∧ s.stimulus.side = Level2D.Side.right)) →
      Level2D.getEffectiveThreshold s < now - s.startTime →
      (Level2D.handleKeyDown s key now =
        Level2D.finishTrial
          { s with currentTrialTimeoutId := none
                   stimulus := { s.stimulus with
                     visible := false, exiting := true, exitStartTime := now } }
          { type := TrialType.slow, points := Level2D.params.minScore / 2
            rt := some (now - s.startTime)
            includeInMedian := decide (now - s.startTime ≤ Level2D.trialMaxRT s)
            timestamp := some now
            thresholdUsed := some (Level2D.getEffectiveThreshold s)
            responseKey := some key, correct := some true } now) ∧
      (now - s.startTime ≤ Level2D.trialMaxRT s →
        (Level2D.handleKeyDown s key now).reactionTimes =
          s.reactionTimes ++ [now - s.startTime]) ∧
      (¬(now - s.startTime ≤ Level2D.trialMaxRT s) →
        (Level2D.handleKeyDown s key now).reactionTimes = s.reactionTimes ∧
        (Level2D.handleKeyDown s key now).medianRT = s.medianRT)) := by
  refine ⟨?_, ?_, ?_⟩
  · intro s now hplay hbreak hvis hexit hrt
    have heq : Level2S.handleKeyDown s Key.arrowDown now =
        Level2S.finishTrial
          { s with currentTrialTimeoutId := none
                   stimulus := { visible := false, exiting := true, exitStartTime := now } }
          { type := TrialType.slow, points := 0, rt := some (now - s.startTime)
            includeInMedian := decide (now - s.startTime ≤ Level2S.trialMaxRT s)
            timestamp := some now
            thresholdUsed := some (Level2S.getEffectiveThreshold s) } now := by
      simp only [Level2S.handleKeyDown, hplay, hbreak, hvis, hexit]
      simp only [Level2S.getEffectiveThreshold] at hrt
      simp [Level2S.getEffectiveThreshold, Level2S.trialMaxRT, hrt]
    refine ⟨heq, ?_, ?_⟩
    · intro hin
      rw [heq]
      exact (Level2S.finishTrial_median_of_include_l2s _ _ _ _
        (by simp [hin]) rfl).1
    · intro hout
      rw [heq]
      have h := Level2S.finishTrial_median_of_not_include_l2s
        { s with currentTrialTimeoutId := none
                 stimulus := { visible := false, exiting := true, exitStartTime := now } }
        { type := TrialType.slow, points := 0, rt := some (now - s.startTime)
          includeInMedian := decide (now - s.startTime ≤ Level2S.trialMaxRT s)
          timestamp := some now
          thresholdUsed := some (Level2S.getEffectiveThreshold s) } now (by simp [hout])
      exact h
  · intro s now hplay hbreak hvis hexit hmin hrt
    have hnotlt : ¬(now - s.startTime < Level1.params.minRT) := not_lt.mpr hmin
    have heq : Level1.handleKeyDown s Key.arrowDown now =
        Level1.finishTrial
          { s with currentTrialTimeoutId := none
                   stimulus := { visible := false, exiting := true, exitStartTime := now } }
          { type := TrialType.slow, points := 0, rt := some (now - s.startTime)
            includeInMedian := decide (now - s.startTime ≤ Level1.trialMaxRT s)
            timestamp := some now
            thresholdUsed := some (max Level1.params.minRT (Level1.getEffectiveThreshold s)) }
          now := by
      simp only [Level1.handleKeyDown, hplay, hbreak, hvis, hexit]
      simp only [Level1.getEffectiveThreshold] at hrt
      simp [Level1.getEffectiveThreshold, Level1.trialMaxRT, hnotlt, hrt]
    refine ⟨heq, ?_, ?_⟩
    · intro hin
      rw [heq]
      exact (Level1.finishTrial_median_of_include_l1 _ _ _ _ (by simp [hin]) rfl).1
    · intro hout
      rw [heq]
      exact Level1.finishTrial_median_of_not_include_l1 _ _ _ (by simp [hout])
  · intro s key now hplay hbreak hvis hexit hkey hrt
    have heq : Level2D.handleKeyDown s key now =
        Level2D.finishTrial
          { s with currentTrialTimeoutId := none
                   stimulus := { s.stimulus with
                     visible := false, exiting := true, exitStartTime := now } }
          { type := TrialType.slow, points := Level2D.params.minScore / 2
            rt := some (now - s.startTime)
            includeInMedian := decide (now - s.startTime ≤ Level2D.trialMaxRT s)
            timestamp := some now
            thresholdUsed := some (Level2D.getEffectiveThreshold s)
            responseKey := some key, correct := some true } now := by
      rcases hkey with ⟨hk, hs⟩ | ⟨hk, hs⟩ <;> subst hk <;>
        simp only [Level2D.handleKeyDown, Level2D.isResponseKey, hplay, hbreak, hvis, hexit] <;>
        simp only [Level2D.getEffectiveThreshold] at hrt <;>
        simp [Level2D.getEffectiveThreshold, Level2D.trialMaxRT, hrt, hs]
    refine ⟨heq, ?_, ?_⟩
    · intro hin
      rw [heq]
      exact (Level2D.finishTrial_median_of_include_l2d _ _ _ _
        (by simp [hin]) rfl (by simp)).1
    · intro hout
      rw [heq]
      exact Level2D.finishTrial_median_of_not_include_l2d _ _ _ (by simp [hout])

/-- Witness for C7: on the first trial of the simplified level 2, a
response at 1500 ms (above the 1000 ms threshold, below the 2000 ms
per-trial maximum) is admitted to the median. -/
theorem claim_C7_slow_classification_witness :
    (Level2S.handleKeyDown (Level2S.delayCallback Level2S.initialState 1000)
        Key.arrowDown 2500).reactionTimes = [1500] := by
  have h := (claim_C7_slow_classification.1
    (Level2S.delayCallback Level2S.initialState 1000) 2500
    rfl rfl rfl rfl
    (by norm_num [Level2S.delayCallback, Level2S.initialState, Level2S.startNewTrial,
      Level2S.getEffectiveThreshold, Level2S.params])).2.1
    (by norm_num [Level2S.delayCallback, Level2S.initialState, Level2S.startNewTrial,
      Level2S.trialMaxRT])
  rw [h]
  norm_num [Level2S.delayCallback, Level2S.initialState, Level2S.startNewTrial]

/-- Witness for C2: the fast response at 200 ms on the first trial of
the simplified level 2 appends the reaction time 200 to the admitted
list. -/
theorem claim_C2_fast_classification_witness :
    (Level2S.handleKeyDown (Level2S.delayCallback Level2S.initialState 1000)
        Key.arrowDown 1200).reactionTimes = [200] := by
  have h := (claim_C2_fast_classification.1
    (Level2S.delayCallback Level2S.initialState 1000) 1200 rfl rfl rfl rfl
    (by norm_num [Level2S.delayCallback, Level2S.initialState, Level2S.startNewTrial,
      Level2S.getEffectiveThreshold, Level2S.params])).2.1
  rw [h]
  norm_num [Level2S.delayCallback, Level2S.initialState, Level2S.startNewTrial]

/-- C4 counterexample: in the simplified level 2, a first-trial fast
response at `rt = 1/50000` ms scores `200 − 1/1000000` points — strictly
below the phase-0 requirement `phaseFloorScore + phaseRequiredScores[0]
= 0 + 200` — yet the `1e-6` tolerance in `_checkForPhaseOrLevelEnd`
triggers the phase transition: the resulting state is in a break with
`phaseIndex = 1` although the logged score never reached the target. -/
theorem claim_C4_counterexample :
    (Level2S.run Level2S.initialState
        [Level2S.Event.delayFired 0 1500,
         Level2S.Event.keyDown Key.arrowDown (1500 + 1/50000)]).phaseIndex = 1 ∧
    (Level2S.run Level2S.initialState
        [Level2S.Event.delayFired 0 1500,
         Level2S.Event.keyDown Key.arrowDown (1500 + 1/50000)]).inBreak = true ∧
    (Level2S.run Level2S.initialState
        [Level2S.Event.delayFired 0 1500,
         Level2S.Event.keyDown Key.arrowDown (1500 + 1/50000)]).data.map
      (fun r => r.score) = [200 - 1/1000000] ∧
    Level2S.initialState.phaseFloorScore = 0 ∧
    Level2S.initialState.phaseRequiredScores.getD 0 0 = 200 ∧
    (200 - 1/1000000 : ℚ) < 0 + 200 := by
  have hc : adaptivePhaseTarget 6 4 100 0 0 = 200 := by
    simp only [adaptivePhaseTarget]
    norm_num
  have h0 : Level2S.initialState =
      { gameState := GState.playing
        score := 0
        trials := 0
        reactionTimes := []
        data := []
        stimulus := { visible := false, exiting := false, exitStartTime := 0 }
        startTime := 0
        pendingStimulusTimeoutId := some 0
        currentTrialTimeoutId := none
        medianRT := 1000
        maxRT := 2000
        phaseIndex := 0
        inBreak := false
        breakState := BreakState.idle
        breakStartTime := 0
        showBreakText := false
        phaseRequiredScores := [200, 0, 0]
        phaseFloorScore := 0
        nextTimerId := 1 } := by
    simp only [Level2S.initialState, Level2S.startNewTrial, Level2S.computePhaseTarget,
      Level2S.params]
    norm_num [hc]
  have h1 : Level2S.run Level2S.initialState
      [Level2S.Event.delayFired 0 1500,
       Level2S.Event.keyDown Key.arrowDown (1500 + 1/50000)] =
      Level2S.handleKeyDown
        { gameState := GState.playing
          score := 0
          trials := 1
          reactionTimes := []
          data := []
          stimulus := { visible := true, exiting := false, exitStartTime := 0 }
          startTime := 1500
          pendingStimulusTimeoutId := none
          currentTrialTimeoutId := some 1
          medianRT := 1000
          maxRT := 2000
          phaseIndex := 0
          inBreak := false
          breakState := BreakState.idle
          breakStartTime := 0
          showBreakText := false
          phaseRequiredScores := [200, 0, 0]
          phaseFloorScore := 0
          nextTimerId := 2 } Key.arrowDown (1500 + 1/50000) := by
    simp only [Level2S.run, List.foldl, h0, Level2S.step, Level2S.delayCallback]
    norm_num
  refine ⟨?_, ?_, ?_, by simp [h0], by simp [h0], by norm_num⟩ <;>
    (rw [h1]
     simp only [Level2S.handleKeyDown, Level2S.getEffectiveThreshold, Level2S.params]
     norm_num
     simp only [Level2S.finishTrial, Level2S.checkForPhaseOrLevelEnd, Level2S.ensurePhaseTarget]
     norm_num [epsilon, Level2S.startPhaseBreak, computeMedian]
     simp)

/-- C4 (corrected): in the simplified level 2, `phaseIndex` stays in
`[0, 2]` along every run from the initial state, is non-decreasing, and
every step changes it by at most one (a change is exactly `+1`, only
possible when it was below 2); at the end of a finished trial, the
phase transition (break, or level end at phase 2) is triggered exactly
when the clamped score comes within the `1e-6` float tolerance of
`phaseFloorScore + phaseRequiredScores[phaseIndex]` (the target being
recomputed first if unset) — i.e. when
`floor + target ≤ score + 1e-6`, not only when the score actually
reaches the target. -/
theorem claim_C4_phase_invariants :
    (∀ (s : Level2S.State) (e : Level2S.Event),
      (Level2S.step s e).phaseIndex = s.phaseIndex ∨
      ((Level2S.step s e).phaseIndex = s.phaseIndex + 1 ∧ s.phaseIndex < 2)) ∧
    (∀ (s : Level2S.State) (l : List Level2S.Event),
      s.phaseIndex ≤ (Level2S.run s l).phaseIndex) ∧
    (∀ l : List Level2S.Event,
      (Level2S.run Level2S.initialState l).phaseIndex ≤ 2) ∧
    (∀ (s : Level2S.State) (o : Level2S.Outcome) (now : ℚ),
      ((Level2S.finishTrial s o now).phaseIndex = s.phaseIndex + 1 ↔
        (s.phaseFloorScore +
            (if s.phaseRequiredScores.getD s.phaseIndex 0 ≤ 0
             then adaptivePhaseTarget Level2S.params.trialsNumber
               Level2S.params.minTrialsPerPhase Level2S.params.minScore
               (s.trials : ℚ) (s.phaseIndex : ℚ)
             else s.phaseRequiredScores.getD s.phaseIndex 0) ≤
          max (s.score + o.points) s.phaseFloorScore + epsilon ∧ s.phaseIndex < 2)) ∧
      ((Level2S.finishTrial s o now).gameState = GState.done ↔
        ((s.phaseFloorScore +
            (if s.phaseRequiredScores.getD s.phaseIndex 0 ≤ 0
             then adaptivePhaseTarget Level2S.params.trialsNumber
               Level2S.params.minTrialsPerPhase Level2S.params.minScore
               (s.trials : ℚ) (s.phaseIndex : ℚ)
             else s.phaseRequiredScores.getD s.phaseIndex 0) ≤
          max (s.score + o.points) s.phaseFloorScore + epsilon ∧ ¬(s.phaseIndex < 2)) ∨
          s.gameState = GState.done))) :=
  ⟨Level2S.step_phaseIndex, Level2S.run_phaseIndex_le,
    fun l => Level2S.run_phaseIndex_le_two Level2S.initialState l
      (by simp [Level2S.initialState, Level2S.startNewTrial]),
    Level2S.finishTrial_trigger⟩

/-- C6 (confirmed): in the level-1 machine, (a) the initial state
satisfies the timer discipline and every event step preserves it —
scheduled callback ids stay below the allocation counter, at most one
of the ISI-delay and trial-timeout callbacks is outstanding at any
time, no delay is pending while the stimulus is shown, and nothing is
pending during a break; (b) a fire event for an id that is not the
currently scheduled one is a no-op, so a cancelled callback can never
mutate state; (c) starting a phase break or ending the level clears
both timer handles synchronously; and (d) after an accepted response
with the stimulus visible, every previously scheduled id is no longer
pending. -/
theorem claim_C6_timer_cancellation :
    Level1.TimerInv Level1.initialState ∧
    (∀ (s : Level1.State) (e : Level1.Event),
      Level1.TimerInv s → Level1.TimerInv (Level1.step s e)) ∧
    (∀ (s : Level1.State) (id : ℕ) (now : ℚ),
      s.pendingStimulusTimeoutId ≠ some id →
      Level1.step s (Level1.Event.delayFired id now) = s) ∧
    (∀ (s : Level1.State) (id : ℕ) (now : ℚ),
      s.currentTrialTimeoutId ≠ some id →
      Level1.step s (Level1.Event.timeoutFired id now) = s) ∧
    (∀ (s : Level1.State) (now : ℚ),
      (Level1.startPhaseBreak s now).pendingStimulusTimeoutId = none ∧
      (Level1.startPhaseBreak s now).currentTrialTimeoutId = none) ∧
    (∀ s : Level1.State,
      (Level1.endLevel s).pendingStimulusTimeoutId = none ∧
      (Level1.endLevel s).currentTrialTimeoutId = none) ∧
    (∀ (s : Level1.State) (now : ℚ) (id : ℕ),
      s.gameState = GState.playing → s.inBreak = false →
      s.stimulus.visible = true → s.stimulus.exiting = false →
      id < s.nextTimerId →
      (Level1.handleKeyDown s Key.arrowDown now).currentTrialTimeoutId ≠ some id ∧
      (Level1.handleKeyDown s Key.arrowDown now).pendingStimulusTimeoutId ≠ some id) := by
  refine ⟨?_, Level1.step_timerInv, ?_, ?_, ?_, fun s => ⟨rfl, rfl⟩, ?_⟩
  · refine ⟨?_, ?_, Or.inr rfl, ?_, ?_⟩
    · intro i hi
      have hi2 : (some 0 : Option ℕ) = some i := hi
      injection hi2 with hi2
      show i < 1
      omega
    · intro i hi
      have hi2 : (none : Option ℕ) = some i := hi
      exact absurd hi2 (by simp)
    · intro hv
      have hv2 : false = true := hv
      exact absurd hv2 (by simp)
    · intro hb
      have hb2 : false = true := hb
      exact absurd hb2 (by simp)
  · intro s id now h
    exact if_neg h
  · intro s id now h
    exact if_neg h
  · intro s now
    exact ⟨(Level1.startPhaseBreak_timers_l1 s now).1, (Level1.startPhaseBreak_timers_l1 s now).2.1⟩
  · intro s now id hplay hbreak hvis hexit hid
    simp only [Level1.handleKeyDown, hplay, hbreak, hvis, hexit]
    norm_num
    split_ifs <;> exact Level1.cancel_after_finish _ _ _ id rfl hid

/-- Witness for C6: stepping the freshly started level-1 session by its
first delay-firing preserves the timer discipline. -/
theorem claim_C6_timer_cancellation_witness :
    Level1.TimerInv (Level1.step Level1.initialState (Level1.Event.delayFired 0 1000)) :=
  claim_C6_timer_cancellation.2.1 Level1.initialState (Level1.Event.delayFired 0 1000)
    claim_C6_timer_cancellation.1

/-- C8 counterexample: the adaptive and the fixed phase-target
strategies agree (both give 200) at `trialsNumber = 4`,
`minTrialsPerPhase = 4`, `minScore = 100`, `trialsCount = 0`, phase 0,
although 4 is not divisible by 3 — refuting the claim that the two
strategies agree only when `trialsNumber` is divisible by 3. -/
theorem claim_C8_counterexample :
    adaptivePhaseTarget 4 4 100 0 0 = fixedPhaseTarget 4 100 ∧ ¬((3:ℤ) ∣ 4) := by
  constructor
  · have hceil : Int.ceil ((4:ℚ)/3) = 2 := by
      rw [Int.ceil_eq_iff]
      constructor <;> norm_num
    simp only [adaptivePhaseTarget, fixedPhaseTarget]
    norm_num [hceil]
  · decide

/-- C8 (corrected): the adaptive variant (level 1 and the simplified
level 2) computes the current phase's target as
`max(minScore, (minTrialsPerPhase/2)·minScore, expectedFast·minScore)`
with `expectedFast = ⌊ceil((trialsNumber − trialsCount)/phasesRemaining) / 2⌋`,
while the directional level 2 uses the fixed
`ceil(trialsNumber/3)·minScore` for every phase regardless of the phase
index or the trial count; however, divisibility of `trialsNumber` by 3
neither guarantees nor is required for agreement: the strategies
coincide at `trialsNumber = 4` (not divisible by 3) and differ at
`trialsNumber = 12` (divisible by 3, adaptive 200 vs fixed 400),
because the adaptive estimate halves the per-phase trial count and the
`minTrialsPerPhase` floor can mask the difference. -/
theorem claim_C8_phase_target_strategies :
    (∀ (s : Level1.State) (i : ℕ),
      Level1.computePhaseTarget s i =
        adaptivePhaseTarget Level1.params.trialsNumber Level1.params.minTrialsPerPhase
          Level1.params.minScore (s.trials : ℚ) (i : ℚ)) ∧
    (∀ (s : Level2S.State) (i : ℕ),
      Level2S.computePhaseTarget s i =
        adaptivePhaseTarget Level2S.params.trialsNumber Level2S.params.minTrialsPerPhase
          Level2S.params.minScore (s.trials : ℚ) (i : ℚ)) ∧
    (∀ (s : Level2D.State) (i j : ℕ),
      Level2D.computePhaseTarget s i =
        fixedPhaseTarget Level2D.params.trialsNumber Level2D.params.minScore ∧
      Level2D.computePhaseTarget s i = Level2D.computePhaseTarget s j) ∧
    (adaptivePhaseTarget 4 4 100 0 0 = 200 ∧ fixedPhaseTarget 4 100 = 200 ∧
      ¬((3:ℤ) ∣ 4)) ∧
    (adaptivePhaseTarget 12 4 100 0 0 = 200 ∧ fixedPhaseTarget 12 100 = 400 ∧
      (3:ℤ) ∣ 12) := by
  refine ⟨fun s i => rfl, fun s i => rfl, fun s i j => ⟨rfl, rfl⟩, ⟨?_, ?_, by decide⟩,
    ⟨?_, ?_, by decide⟩⟩
  · have hceil : Int.ceil ((4:ℚ)/3) = 2 := by
      rw [Int.ceil_eq_iff]
      constructor <;> norm_num
    simp only [adaptivePhaseTarget]
    norm_num [hceil]
  · have hceil : Int.ceil ((4:ℚ)/3) = 2 := by
      rw [Int.ceil_eq_iff]
      constructor <;> norm_num
    simp only [fixedPhaseTarget]
    norm_num [hceil]
  · simp only [adaptivePhaseTarget]
    norm_num
  · simp only [fixedPhaseTarget]
    norm_num

/-- C5 counterexample: in level 1 (`part_007`), a trial that times out
with no response appends no record at all to the trial log — after one
presented stimulus times out, the log is still empty (and the internal
outcome is typed `slow`, not `Timeout`) — refuting the claim that a
timeout is stamped with a timestamp and logged like every other
classification. -/
theorem claim_C5_counterexample :
    (Level1.run Level1.initialState
        [Level1.Event.delayFired 0 1000, Level1.Event.timeoutFired 1 3000]).trials = 1 ∧
    (Level1.run Level1.initialState
        [Level1.Event.delayFired 0 1000, Level1.Event.timeoutFired 1 3000]).data = [] ∧
    (Level1.run Level1.initialState
        [Level1.Event.delayFired 0 1000, Level1.Event.timeoutFired 1 3000]).reactionTimes = [] ∧
    (Level1.run Level1.initialState
        [Level1.Event.delayFired 0 1000, Level1.Event.timeoutFired 1 3000]).score = 0 := by
  have hc : adaptivePhaseTarget 12 4 100 0 0 = 200 := by
    simp only [adaptivePhaseTarget]
    norm_num
  have h0 : Level1.initialState =
      { gameState := GState.playing
        score := 0
        trials := 0
        reactionTimes := []
        data := []
        stimulus := { visible := false, exiting := false, exitStartTime := 0 }
        startTime := 0
        pendingStimulusTimeoutId := some 0
        currentTrialTimeoutId := none
        medianRT := 1000
        maxRT := 2000
        phaseIndex := 0
        inBreak := false
        breakState := BreakState.idle
        breakStartTime := 0
        showBreakText := false
        phaseRequiredScores := [200, 0, 0]
        phaseFloorScore := 0
        nextTimerId := 1 } := by
    simp only [Level1.initialState, Level1.startNewTrial, Level1.computePhaseTarget,
      Level1.params]
    norm_num [hc]
  have h1 : Level1.run Level1.initialState
      [Level1.Event.delayFired 0 1000, Level1.Event.timeoutFired 1 3000] =
      Level1.timeoutCallback
        { gameState := GState.playing
          score := 0
          trials := 1
          reactionTimes := []
          data := []
          stimulus := { visible := true, exiting := false, exitStartTime := 0 }
          startTime := 1000
          pendingStimulusTimeoutId := none
          currentTrialTimeoutId := some 1
          medianRT := 1000
          maxRT := 2000
          phaseIndex := 0
          inBreak := false
          breakState := BreakState.idle
          breakStartTime := 0
          showBreakText := false
          phaseRequiredScores := [200, 0, 0]
          phaseFloorScore := 0
          nextTimerId := 2 } 3000 := by
    simp only [Level1.run, List.foldl, h0, Level1.step, Level1.delayCallback]
    norm_num
  rw [h1]
  simp only [Level1.timeoutCallback, Level1.finishTrial, Level1.ensurePhaseTarget]
  norm_num [epsilon, Level1.startNewTrial]

/-- C5 (corrected): when the per-trial timeout fires with no response
while the session is playing and the stimulus is visible, the simplified
level 2 produces a `timeout` outcome with 0 points that never touches
`reactionTimes`/`medianRT` and appends exactly one ISO-timestamped log
record; level 1, however, finishes the trial as a 0-point `slow` outcome
carrying no timestamp, so it appends no log record at all (its median
and reaction-time list are likewise untouched). -/
theorem claim_C5_timeout_outcome :
    (∀ (s : Level2S.State) (now : ℚ),
      s.gameState = GState.playing → s.stimulus.visible = true →
      Level2S.timeoutCallback s now =
        Level2S.finishTrial
          { s with currentTrialTimeoutId := none
                   stimulus := { visible := false, exiting := true, exitStartTime := now } }
          { type := TrialType.timeout, points := 0, rt := none, includeInMedian := false
            timestamp := some now, thresholdUsed := none } now ∧
      (Level2S.timeoutCallback s now).reactionTimes = s.reactionTimes ∧
      (Level2S.timeoutCallback s now).medianRT = s.medianRT ∧
      (Level2S.timeoutCallback s now).data = s.data ++
        [{ phase := s.phaseIndex + 1
           trialType := TrialType.timeout
           time := now
           trial := s.trials
           rt := none
           error := 1
           threshold := Level2S.getEffectiveThreshold s
           score := max s.score s.phaseFloorScore
           scoreChange := 0 }]) ∧
    (∀ (s : Level1.State) (now : ℚ),
      s.gameState = GState.playing → s.stimulus.visible = true →
      Level1.timeoutCallback s now =
        Level1.finishTrial
          { s with currentTrialTimeoutId := none
                   stimulus := { visible := false, exiting := true, exitStartTime := now } }
          { type := TrialType.slow, points := 0, rt := none, includeInMedian := false
            timestamp := none, thresholdUsed := none } now ∧
      (Level1.timeoutCallback s now).reactionTimes = s.reactionTimes ∧
      (Level1.timeoutCallback s now).medianRT = s.medianRT ∧
      (Level1.timeoutCallback s now).data = s.data) :=
  ⟨Level2S.timeoutCallback_spec_l2s, Level1.timeoutCallback_spec_l1⟩

/-- Witness for C5: a timeout firing 2000 ms after stimulus onset in a
fresh level-1 session leaves the log empty, while the same situation in
the simplified level 2 logs exactly one timeout record. -/
theorem claim_C5_timeout_outcome_witness :
    (Level1.timeoutCallback (Level1.delayCallback Level1.initialState 1000) 3000).data =
      ([] : List Level1.Record) ∧
    (Level2S.timeoutCallback (Level2S.delayCallback Level2S.initialState 1000) 3000).data =
      [{ phase := 1, trialType := TrialType.timeout, time := 3000, trial := 1, rt := none
         error := 1, threshold := 1000, score := 0, scoreChange := 0 }] := by
  constructor
  · exact (claim_C5_timeout_outcome.2
      (Level1.delayCallback Level1.initialState 1000) 3000 rfl rfl).2.2.2
  · have h := (claim_C5_timeout_outcome.1
      (Level2S.delayCallback Level2S.initialState 1000) 3000 rfl rfl).2.2.2
    rw [h]
    norm_num [Level2S.delayCallback, Level2S.initialState, Level2S.startNewTrial,
      Level2S.getEffectiveThreshold, Level2S.params]

/-- Witness for C10: a press 50 ms after stimulus onset in a running
level-1 session appends no log record. -/
theorem claim_C10_minRT_anticipation_cutoff_witness :
    (Level1.handleKeyDown (Level1.delayCallback Level1.initialState 1000)
        Key.arrowDown 1050).data = [] :=
  (claim_C10_minRT_anticipation_cutoff (Level1.delayCallback Level1.initialState 1000) 1050
    rfl rfl rfl rfl (by norm_num [Level1.delayCallback, Level1.params])).2.2.2

end DoggoNogo
